import Mathlib

/-!
# gstreamer-demos: a shallow embedding of the tutorial programs

The tutorials are glue code around the GStreamer and GLib libraries.  Every
function of the repository that a property talks about is translated here as
a pure function: what the C code reads from the libraries (a flow result, a
state-change result, the messages popped from a bus, whether a pad is linked)
is an argument, and what it does to them (prints, link attempts, reference
drops, state requests) is returned as a list of events in program order.

Part I holds the definitions, Part II the theorems.
-/

/-! ## Part I. Definitions -/

namespace Gst

/-- Constant `GST_SECOND`: one second in nanoseconds (the unit of `GstClockTime`). -/
def GST_SECOND : Nat := 1000000000

/-- Constant `G_MAXUINT64`. -/
def G_MAXUINT64 : Nat := 2 ^ 64 - 1

/-- Function `gst_util_uint64_scale (val, num, denom)` of the GStreamer library, by its
documented contract: `val * num / denom` computed without intermediate
overflow and rounded down; `G_MAXUINT64` when the result does not fit in 64
bits (and for a zero denominator, where the library's argument check returns
the same value).  The source's own comment reads "res = a*b/c in uint64". -/
def gst_util_uint64_scale (val num denom : Nat) : Nat :=
  if denom = 0 then G_MAXUINT64
  else if val * num / denom ≤ G_MAXUINT64 then val * num / denom
  else G_MAXUINT64

/-- Type `GstFlowReturn`: the result of pushing a buffer. -/
inductive GstFlowReturn where
  | CUSTOM_SUCCESS
  | OK
  | NOT_LINKED
  | FLUSHING
  | EOS
  | NOT_NEGOTIATED
  | ERROR
  | NOT_SUPPORTED
  | CUSTOM_ERROR
  deriving DecidableEq, Repr

/-- One field of a `GstStructure`: its name (`g_quark_to_string` of the field
id) and what `gst_value_serialize` returns for its value (NULL for a value
that cannot be serialized). -/
structure GstField where
  name : String
  svalue : Option String
  deriving DecidableEq, Repr

/-- A named set of fields, in the structure's own field order. -/
structure GstStructure where
  name : String
  fields : List GstField
  deriving DecidableEq, Repr

/-- Type `GstCaps`: the `GST_CAPS_FLAG_ANY` flag and the ordered structures. -/
structure GstCaps where
  any : Bool
  structs : List GstStructure
  deriving DecidableEq, Repr

/-- Function `gst_caps_is_any`. -/
def gst_caps_is_any (caps : GstCaps) : Bool := caps.any

/-- Function `gst_caps_is_empty`: not ANY and without a structure. -/
def gst_caps_is_empty (caps : GstCaps) : Bool := !caps.any && caps.structs.isEmpty

/-- Function `gst_caps_get_size`. -/
def gst_caps_get_size (caps : GstCaps) : Nat := caps.structs.length

/-- Function `gst_caps_get_structure (caps, index)`: NULL for NULL caps and for an
index that is out of range (the library's argument checks). -/
def gst_caps_get_structure (caps : Option GstCaps) (index : Nat) : Option GstStructure :=
  match caps with
  | none => none
  | some c => c.structs[index]?

/-- Function `gst_structure_get_name`: NULL for a NULL structure. -/
def gst_structure_get_name (st : Option GstStructure) : Option String :=
  match st with
  | none => none
  | some s => some s.name

/-- Function `g_str_has_prefix (str, prefix)`: FALSE for a NULL string. -/
def g_str_has_prefix (str : Option String) (pfx : String) : Bool :=
  match str with
  | none => false
  | some s => pfx.toList.isPrefixOf s.toList

/-- How the C library prints a `%s` argument: the text, or `(null)`. -/
def fmt_s (str : Option String) : String :=
  match str with
  | none => "(null)"
  | some s => s

end Gst

namespace GLib

/-- The part of the default `GMainContext` that the feeding callbacks touch:
the idle sources running `push_data` that are attached to it, by source id,
and the id the context hands out next.  GLib documents that an attached
source gets an id greater than 0 which no other attached source has; a
counter that starts at 1 is the simplest allocator with that contract. -/
structure MainContext where
  next_id : Nat
  sources : List Nat
  deriving DecidableEq, Repr

/-- Function `g_idle_add (function, data)`: attaches a new idle source and returns its
id. -/
def g_idle_add (ctx : MainContext) : Nat × MainContext :=
  (ctx.next_id, { next_id := ctx.next_id + 1, sources := ctx.sources ++ [ctx.next_id] })

/-- Function `g_source_remove (tag)`: detaches the source with that id.  For an id
that no attached source has, GLib logs a critical message and returns FALSE,
changing nothing. -/
def g_source_remove (ctx : MainContext) (tag : Nat) : Bool × MainContext :=
  (decide (tag ∈ ctx.sources), { ctx with sources := ctx.sources.filter (fun i => i != tag) })

end GLib

namespace T08
open Gst GLib

/-- Constant `CHUNK_SIZE`: amount of bytes sent in each buffer. -/
def CHUNK_SIZE : Nat := 1024

/-- Constant `SAMPLE_RATE`: samples per second. -/
def SAMPLE_RATE : Nat := 44100

/-- The fields of `CustomData` that the callbacks update with integer
arithmetic: `num_samples` is a `guint64`, `sourceid` a `guint`.  The element
pointers are fixed after `main` has built the pipeline and the four `gfloat`
waveform registers only feed the sample bytes, which are not modelled. -/
structure CustomData where
  num_samples : Nat
  sourceid : Nat
  deriving DecidableEq, Repr

/-- The metadata of the `GstBuffer` that `push_data` fills in. -/
structure GstBuffer where
  size : Nat
  timestamp : Nat
  duration : Nat
  deriving DecidableEq, Repr

/-- What `push_data` does with the buffer, in program order. -/
inductive BufferEvent where
  | new_and_alloc (size : Nat)
  | map_write
  | unmap
  | push_buffer (buf : GstBuffer)
  | buffer_unref
  deriving DecidableEq, Repr

/-- The outcome of one call of `push_data`. -/
structure PushResult where
  data : CustomData
  buffer : GstBuffer
  events : List BufferEvent
  keep : Bool
  deriving DecidableEq, Repr

/-- Function `push_data`: builds one buffer of `CHUNK_SIZE` bytes, stamps it, advances
the sample counter, emits `push-buffer` and drops the buffer.  `ret` is the
flow result that the `push-buffer` emission stores.  The result `keep` is the
`gboolean` returned to the main loop. -/
def push_data (data : CustomData) (ret : GstFlowReturn) : PushResult :=
  let num_samples := CHUNK_SIZE / 2
  let buffer : GstBuffer :=
    { size := CHUNK_SIZE
      timestamp := gst_util_uint64_scale data.num_samples GST_SECOND SAMPLE_RATE
      duration := gst_util_uint64_scale num_samples GST_SECOND SAMPLE_RATE }
  let data1 : CustomData :=
    { data with num_samples := (data.num_samples + num_samples) % 2 ^ 64 }
  let events :=
    [BufferEvent.new_and_alloc CHUNK_SIZE, BufferEvent.map_write, BufferEvent.unmap,
     BufferEvent.push_buffer buffer, BufferEvent.buffer_unref]
  if ret ≠ GstFlowReturn.OK then
    { data := data1, buffer := buffer, events := events, keep := false }
  else
    { data := data1, buffer := buffer, events := events, keep := true }

/-- The program state seen by the feeding callbacks: the `CustomData` record,
the main context, what `g_print` has written and the buffers handed to
`appsrc`, oldest first. -/
structure World where
  data : CustomData
  loop : MainContext
  out : List String
  pushed : List GstBuffer
  deriving DecidableEq, Repr

/-- The state in which `main` enters the main loop: `memset` has zeroed
`CustomData` and no idle handler has been added. -/
def World.init : World :=
  { data := { num_samples := 0, sourceid := 0 }
    loop := { next_id := 1, sources := [] }
    out := []
    pushed := [] }

/-- Function `start_feed`: the `need-data` callback.  The `source` and `size`
arguments are not used by the C function. -/
def start_feed (w : World) : World :=
  if w.data.sourceid = 0 then
    let r := g_idle_add w.loop
    { w with
      out := w.out ++ ["Start feeding\n"]
      loop := r.2
      data := { w.data with sourceid := r.1 } }
  else w

/-- Function `stop_feed`: the `enough-data` callback. -/
def stop_feed (w : World) : World :=
  if w.data.sourceid ≠ 0 then
    let r := g_source_remove w.loop w.data.sourceid
    { w with
      out := w.out ++ ["Stop feeding\n"]
      loop := r.2
      data := { w.data with sourceid := 0 } }
  else w

/-- One dispatch by the main loop of the idle source `id`: it runs
`push_data`, and GLib destroys the source when the callback returns FALSE.
A source that is not attached is never dispatched. -/
def idle_dispatch (w : World) (id : Nat) (ret : GstFlowReturn) : World :=
  if id ∈ w.loop.sources then
    let r := push_data w.data ret
    { w with
      data := r.data
      pushed := w.pushed ++ [r.buffer]
      loop := if r.keep then w.loop
              else { w.loop with sources := w.loop.sources.filter (fun i => i != id) } }
  else w

/-- What can happen while the main loop runs. -/
inductive FeedEvent where
  | need_data
  | enough_data
  | idle (id : Nat) (ret : GstFlowReturn)
  deriving DecidableEq, Repr

/-- One step of the feeding machine. -/
def step (w : World) : FeedEvent → World
  | FeedEvent.need_data => start_feed w
  | FeedEvent.enough_data => stop_feed w
  | FeedEvent.idle id ret => idle_dispatch w id ret

/-- The state after a sequence of events. -/
def run (w : World) (evs : List FeedEvent) : World :=
  evs.foldl step w

/-- Whether some `push_data` idle handler is attached to the main loop. -/
def registered (w : World) : Bool :=
  !w.loop.sources.isEmpty

/-- What `new_sample` does, in program order. -/
inductive SampleEvent where
  | pull_sample
  | g_print (s : String)
  | sample_unref (sample : Nat)
  deriving DecidableEq, Repr

/-- Function `new_sample`: the `new-sample` callback of the appsink.  `sample` is what
the `pull-sample` emission stores: a sample (named by a number) or NULL. -/
def new_sample (sample : Option Nat) : GstFlowReturn × List SampleEvent :=
  match sample with
  | some s =>
    (GstFlowReturn.OK,
      [SampleEvent.pull_sample, SampleEvent.g_print "*", SampleEvent.sample_unref s])
  | none => (GstFlowReturn.ERROR, [SampleEvent.pull_sample])

end T08

namespace T03
open Gst

/-- The pads of tutorial 03: the sink pads of `videoconvert` and
`audioconvert`, and the source pads that `uridecodebin` adds at run time. -/
inductive Pad where
  | videoconvert_sink
  | audioconvert_sink
  | source_src (n : Nat)
  deriving DecidableEq, Repr

/-- Type `GstPadDirection`. -/
inductive GstPadDirection where
  | SRC
  | SINK
  deriving DecidableEq, Repr

/-- The direction of each pad. -/
def Pad.direction : Pad → GstPadDirection
  | Pad.videoconvert_sink => GstPadDirection.SINK
  | Pad.audioconvert_sink => GstPadDirection.SINK
  | Pad.source_src _ => GstPadDirection.SRC

/-- Macro `GST_PAD_NAME`. -/
def Pad.name : Pad → String
  | Pad.videoconvert_sink => "sink"
  | Pad.audioconvert_sink => "sink"
  | Pad.source_src n => "src_" ++ toString n

/-- The links between pads, each a (source pad, sink pad) pair. -/
structure PadGraph where
  links : List (Pad × Pad)
  deriving DecidableEq, Repr

/-- Function `gst_pad_is_linked`: whether the pad has a peer. -/
def gst_pad_is_linked (g : PadGraph) (p : Pad) : Bool :=
  g.links.any (fun l => l.1 == p || l.2 == p)

/-- Function `gst_pad_get_peer`: the pad at the other end of the pad's link. -/
def gst_pad_get_peer (g : PadGraph) (p : Pad) : Option Pad :=
  match g.links.find? (fun l => l.1 == p || l.2 == p) with
  | some l => if l.1 == p then some l.2 else some l.1
  | none => none

/-- Type `GstPadLinkReturn`. -/
inductive GstPadLinkReturn where
  | OK
  | WRONG_HIERARCHY
  | WAS_LINKED
  | WRONG_DIRECTION
  | NOFORMAT
  | NOSCHED
  | REFUSED
  deriving DecidableEq, Repr

/-- Macro `GST_PAD_LINK_FAILED`: every result other than `GST_PAD_LINK_OK`. -/
def GST_PAD_LINK_FAILED (ret : GstPadLinkReturn) : Bool :=
  ret != GstPadLinkReturn.OK

/-- Function `gst_pad_link (srcpad, sinkpad)` of the GStreamer library, by its
documented contract: it refuses a pad of the wrong direction and a pad that
already has a peer, and changes nothing then; for two free pads the result is
`check`, the outcome of the library's remaining checks (hierarchy, caps
compatibility, scheduling, the pads' own link functions), and the pads become
peers exactly when that is `GST_PAD_LINK_OK`. -/
def gst_pad_link (g : PadGraph) (srcpad sinkpad : Pad) (check : GstPadLinkReturn) :
    GstPadLinkReturn × PadGraph :=
  if srcpad.direction ≠ GstPadDirection.SRC then (GstPadLinkReturn.WRONG_DIRECTION, g)
  else if gst_pad_is_linked g srcpad then (GstPadLinkReturn.WAS_LINKED, g)
  else if sinkpad.direction ≠ GstPadDirection.SINK then (GstPadLinkReturn.WRONG_DIRECTION, g)
  else if gst_pad_is_linked g sinkpad then (GstPadLinkReturn.WAS_LINKED, g)
  else if check = GstPadLinkReturn.OK then
    (GstPadLinkReturn.OK, { links := g.links ++ [(srcpad, sinkpad)] })
  else (check, g)

/-- What `pad_added_handler` does, in program order. -/
inductive PadEvent where
  | get_static_pad (element name : String)
  | g_print (s : String)
  | get_current_caps (pad : Pad)
  | caps_get_structure (caps_present : Bool) (index : Nat)
  | structure_get_name (structure_present : Bool)
  | pad_link (srcpad sinkpad : Pad) (ret : GstPadLinkReturn)
  | caps_unref
  | object_unref (pad : Pad)
  deriving DecidableEq, Repr

/-- The `exit:` label of `pad_added_handler`: drop the caps if there are any,
then the two sink pads. -/
def handler_exit (new_pad_caps : Option GstCaps) : List PadEvent :=
  (if new_pad_caps.isSome then [PadEvent.caps_unref] else []) ++
    [PadEvent.object_unref Pad.videoconvert_sink, PadEvent.object_unref Pad.audioconvert_sink]

/-- Function `pad_added_handler`: the `pad-added` callback.  `src` is the name of the
emitting element, `caps` what `gst_pad_get_current_caps (new_pad)` returns
(NULL before negotiation) and `check` the outcome of the library's link
checks, should a link between two free pads be attempted. -/
def pad_added_handler (g : PadGraph) (src : String) (new_pad : Pad) (caps : Option GstCaps)
    (check : GstPadLinkReturn) : PadGraph × List PadEvent :=
  let video_sink_pad := Pad.videoconvert_sink
  let audio_sink_pad := Pad.audioconvert_sink
  let ev0 :=
    [PadEvent.get_static_pad "videoconvert" "sink", PadEvent.get_static_pad "audioconvert" "sink",
     PadEvent.g_print ("Received new pad '" ++ new_pad.name ++ "' from '" ++ src ++ "':\n")]
  if gst_pad_is_linked g video_sink_pad && gst_pad_is_linked g audio_sink_pad then
    (g, ev0 ++ [PadEvent.g_print "We are already linked. Ignoring.\n"] ++ handler_exit none)
  else
    let new_pad_caps := caps
    let new_pad_struct := gst_caps_get_structure new_pad_caps 0
    let new_pad_type := gst_structure_get_name new_pad_struct
    let ev1 := ev0 ++
      [PadEvent.get_current_caps new_pad,
       PadEvent.caps_get_structure new_pad_caps.isSome 0,
       PadEvent.structure_get_name new_pad_struct.isSome]
    if g_str_has_prefix new_pad_type "video/x-raw" then
      let r := gst_pad_link g new_pad video_sink_pad check
      (r.2, ev1 ++
        [PadEvent.pad_link new_pad video_sink_pad r.1,
         PadEvent.g_print
           (if GST_PAD_LINK_FAILED r.1 then
              "Type is '" ++ fmt_s new_pad_type ++ "' but link failed.\n"
            else "Link succeeded (type '" ++ fmt_s new_pad_type ++ "').\n")] ++
        handler_exit new_pad_caps)
    else if g_str_has_prefix new_pad_type "audio/x-raw" then
      let r := gst_pad_link g new_pad audio_sink_pad check
      (r.2, ev1 ++
        [PadEvent.pad_link new_pad audio_sink_pad r.1,
         PadEvent.g_print
           (if GST_PAD_LINK_FAILED r.1 then
              "Type is '" ++ fmt_s new_pad_type ++ "' but link failed.\n"
            else "Link succeeded (type '" ++ fmt_s new_pad_type ++ "').\n")] ++
        handler_exit new_pad_caps)
    else
      (g, ev1 ++
        [PadEvent.g_print
           ("It has type '" ++ fmt_s new_pad_type ++ "' which is not support. Ignoring.\n")] ++
        handler_exit new_pad_caps)

/-- The link attempts among the events of one handler call, as (source pad,
sink pad) pairs in program order. -/
def link_attempts (evs : List PadEvent) : List (Pad × Pad) :=
  evs.filterMap (fun e =>
    match e with
    | PadEvent.pad_link s k _ => some (s, k)
    | _ => none)

/-- The fixed caps of a raw stream of the given media type. -/
def raw_caps (media : String) : GstCaps :=
  { any := false, structs := [{ name := media, fields := [] }] }

end T03

namespace T06
open Gst

/-- The `%15s` conversion: the text right-justified in a field of 15 bytes. -/
def pad15 (s : String) : String :=
  String.mk (List.replicate (15 - s.utf8ByteSize) ' ') ++ s

/-- Function `print_field`: the callback of `gst_structure_foreach`; it prints one
line and returns TRUE.  `user_data` is the line start. -/
def print_field (field : GstField) (user_data : String) : List String × Bool :=
  ([user_data ++ " " ++ pad15 field.name ++ ": " ++ fmt_s field.svalue ++ "\n"], true)

/-- Function `gst_structure_foreach`: calls the function on each field in order and
stops at the first call that returns FALSE; the result says whether every
call returned TRUE. -/
def gst_structure_foreach (fields : List GstField)
    (func : GstField → String → List String × Bool) (user_data : String) :
    List String × Bool :=
  match fields with
  | [] => ([], true)
  | f :: rest =>
    let r := func f user_data
    if r.2 then
      let r2 := gst_structure_foreach rest func user_data
      (r.1 ++ r2.1, r2.2)
    else (r.1, false)

/-- The body of the loop of `print_caps` for index `i`. -/
def print_caps_body (caps : GstCaps) (pfx : String) (i : Nat) : List String :=
  let cap := gst_caps_get_structure (some caps) i
  [pfx ++ fmt_s (gst_structure_get_name cap) ++ "\n"] ++
    (match cap with
     | some c => (gst_structure_foreach c.fields print_field pfx).1
     | none => [])

/-- Function `print_caps`: the text written by `g_print`, one entry per call.  A NULL
`caps` fails the `g_return_if_fail` check and prints nothing. -/
def print_caps (caps : Option GstCaps) (pfx : String) : List String :=
  match caps with
  | none => []
  | some c =>
    if gst_caps_is_any c then [pfx ++ "ANY\n"]
    else if gst_caps_is_empty c then [pfx ++ "EMPTY\n"]
    else ((List.range (gst_caps_get_size c)).map (print_caps_body c pfx)).flatten

/-- The line `print_field` writes for a field. -/
def field_line (pfx : String) (field : GstField) : String :=
  pfx ++ " " ++ pad15 field.name ++ ": " ++ fmt_s field.svalue ++ "\n"

/-- The dump of one structure as the specification words it: the line with
the structure name, then one line per field in field order. -/
def structure_dump (pfx : String) (st : GstStructure) : List String :=
  (pfx ++ st.name ++ "\n") :: st.fields.map (field_line pfx)

end T06

namespace Gst

/-- Type `GstState`. -/
inductive GstState where
  | VOID_PENDING
  | NULL
  | READY
  | PAUSED
  | PLAYING
  deriving DecidableEq, Repr

/-- Function `gst_element_state_get_name`. -/
def gst_element_state_get_name : GstState → String
  | GstState.VOID_PENDING => "VOID_PENDING"
  | GstState.NULL => "NULL"
  | GstState.READY => "READY"
  | GstState.PAUSED => "PAUSED"
  | GstState.PLAYING => "PLAYING"

/-- Type `GstStateChangeReturn`. -/
inductive GstStateChangeReturn where
  | FAILURE
  | SUCCESS
  | ASYNC
  | NO_PREROLL
  deriving DecidableEq, Repr

/-- The message types the tutorials look at; `OTHER` is any other type. -/
inductive GstMessageType where
  | ERROR
  | EOS
  | STATE_CHANGED
  | OTHER
  deriving DecidableEq, Repr

/-- What the tutorials read from a `GstMessage`: its type, whether its source
is the pipeline (`GST_MESSAGE_SRC (msg) == GST_OBJECT (pipeline)`), the name
of the source, the parsed error text and debug text, and the parsed old and
new state. -/
structure GstMessage where
  type : GstMessageType
  from_pipeline : Bool
  src_name : String
  err_message : String
  debug_info : Option String
  old_state : GstState
  new_state : GstState
  deriving DecidableEq, Repr

/-- A value passed to `g_object_set`. -/
inductive Arg where
  | int (i : Int)
  | real (text : String)
  | str (s : String)
  | bool (b : Bool)
  | ref (var : String)
  deriving DecidableEq, Repr

/-- The library calls a tutorial `main` makes, in program order.  Objects
are named by the C variable that holds them; a `var` argument is the variable
the call's result is stored in. -/
inductive Action where
  | gst_init
  | parse_launch (var description : String)
  | factory_find (var factory : String)
  | factory_make (var factory name : String)
  | factory_create (var factory name : String)
  | pipeline_new (var name : String)
  | bin_new (var name : String)
  | g_print (s : String)
  | g_printerr (s : String)
  | bin_add_many (bin : String) (elements : List String)
  | element_link (src dest : String)
  | element_link_many (elements : List String)
  | g_object_set (object property : String) (value : Arg)
  | g_object_get (object property : String)
  | signal_connect (object signal handler : String)
  | set_state (element : String) (state : GstState)
  | get_bus (var element : String)
  | bus_timed_pop_filtered (bus : String) (types : List GstMessageType)
  | bus_add_watch (bus handler : String)
  | bus_add_signal_watch (bus : String)
  | message_unref
  | object_unref (object : String)
  | get_static_pad (var element name : String)
  | request_pad_simple (var element name : String)
  | pad_link (srcpad sinkpad : String)
  | release_request_pad (element pad : String)
  | main_loop_new (var : String)
  | main_loop_run (loop : String)
  | main_loop_unref (loop : String)
  | io_channel_new (var : String)
  | io_add_watch (channel handler : String)
  | io_channel_unref (channel : String)
  | print_pad_templates_information (factory : String)
  | print_pad_capabilities (element pad_name : String)
  | audio_info_set_format (rate channels : Nat)
  | audio_info_to_caps (var : String)
  | caps_unref (caps : String)
  | ghost_pad_new (var name target : String)
  | pad_set_active (pad : String)
  | element_add_pad (element pad : String)
  deriving DecidableEq, Repr

/-- Whether the call is made on the object held in variable `obj` (as the
object it creates, acts on, or receives as an argument). -/
def Action.on (obj : String) : Action → Bool
  | Action.parse_launch v _ => v == obj
  | Action.factory_find v _ => v == obj
  | Action.factory_make v _ _ => v == obj
  | Action.factory_create v f _ => v == obj || f == obj
  | Action.pipeline_new v _ => v == obj
  | Action.bin_new v _ => v == obj
  | Action.bin_add_many b els => b == obj || els.contains obj
  | Action.element_link s d => s == obj || d == obj
  | Action.element_link_many els => els.contains obj
  | Action.g_object_set o _ v => o == obj || v == Arg.ref obj
  | Action.g_object_get o _ => o == obj
  | Action.signal_connect o _ _ => o == obj
  | Action.set_state e _ => e == obj
  | Action.get_bus v e => v == obj || e == obj
  | Action.bus_timed_pop_filtered b _ => b == obj
  | Action.bus_add_watch b _ => b == obj
  | Action.bus_add_signal_watch b => b == obj
  | Action.object_unref o => o == obj
  | Action.get_static_pad v e _ => v == obj || e == obj
  | Action.request_pad_simple v e _ => v == obj || e == obj
  | Action.pad_link s d => s == obj || d == obj
  | Action.release_request_pad e p => e == obj || p == obj
  | Action.main_loop_new v => v == obj
  | Action.main_loop_run l => l == obj
  | Action.main_loop_unref l => l == obj
  | Action.io_channel_new v => v == obj
  | Action.io_add_watch c _ => c == obj
  | Action.io_channel_unref c => c == obj
  | Action.print_pad_templates_information f => f == obj
  | Action.print_pad_capabilities e _ => e == obj
  | Action.audio_info_to_caps v => v == obj
  | Action.caps_unref c => c == obj
  | Action.ghost_pad_new v _ t => v == obj || t == obj
  | Action.pad_set_active p => p == obj
  | Action.element_add_pad e p => e == obj || p == obj
  | _ => false

/-- What a run of `main` reads from the libraries.
* `made v`: the creation call stored a non-NULL object in variable `v`;
* `linked n`: the `n`-th link call in the text of `main` (element links and
  pad links, counted from 0) reported success;
* `play`: the result of the request to go to PLAYING;
* `bus`: what the successive blocking pops from the bus return (a message or
  NULL); with `GST_CLOCK_TIME_NONE` a pop past the end of the list never
  returns;
* `loop_quits`: whether `g_main_loop_run` returns (some callback quits the
  loop);
* `flags`: the initial value of playbin's `flags` property. -/
structure Env where
  made : String → Bool
  linked : Nat → Bool
  play : GstStateChangeReturn
  bus : List (Option GstMessage)
  loop_quits : Bool
  flags : Int

/-- A run of `main`: the calls made and the value returned, `none` when
`main` never returns. -/
structure Run where
  trace : List Action
  ret : Option Int
  deriving DecidableEq, Repr

/-- The two lines every tutorial prints for an ERROR message. -/
def error_report (m : GstMessage) : List Action :=
  [Action.g_printerr
     ("Error received from element " ++ m.src_name ++ ": " ++ m.err_message ++ "\n"),
   Action.g_printerr
     ("Debugging information: " ++ (match m.debug_info with
                                    | some d => d
                                    | none => "none") ++ "\n")]

/-- The media URI played by tutorials 01, 03 and 11. -/
def sintel_uri : String :=
  "https://www.freedesktop.org/software/gstreamer-sdk/data/media/sintel_trailer-480p.webm"

end Gst

namespace T01
open Gst

/-- The `main` of 01.helloworld. -/
def main (env : Env) : Run :=
  let t0 :=
    [Action.gst_init,
     Action.parse_launch "pipeline" ("playbin uri=" ++ sintel_uri),
     Action.set_state "pipeline" GstState.PLAYING,
     Action.get_bus "bus" "pipeline",
     Action.bus_timed_pop_filtered "bus" [GstMessageType.ERROR, GstMessageType.EOS]]
  match env.bus with
  | [] => { trace := t0, ret := none }
  | msg :: _ =>
    { trace := t0 ++
        (if msg.isSome then [Action.message_unref] else []) ++
        [Action.object_unref "bus",
         Action.set_state "pipeline" GstState.NULL,
         Action.object_unref "pipeline"]
      ret := some 0 }

end T01

namespace T02
open Gst

/-- The `switch` on the popped message in `main` of tutorial 02. -/
def parse_message (m : GstMessage) : List Action :=
  match m.type with
  | GstMessageType.ERROR => error_report m
  | GstMessageType.EOS => [Action.g_print "End-Of-Stream reached.\n"]
  | _ => [Action.g_printerr "Unexpected message received.\n"]

/-- The `main` of 02.build pipeline manually. -/
def main (env : Env) : Run :=
  let t0 :=
    [Action.gst_init,
     Action.factory_make "source" "videotestsrc" "source",
     Action.factory_make "filter" "vertigotv" "filter",
     Action.factory_make "sink" "autovideosink" "sink",
     Action.pipeline_new "pipeline" "test-pipeline"]
  if !env.made "pipeline" || !env.made "source" || !env.made "filter" || !env.made "sink" then
    { trace := t0 ++ [Action.g_printerr "Not all elements could be created.\n"]
      ret := some (-1) }
  else
    let t1 := t0 ++
      [Action.bin_add_many "pipeline" ["source", "filter", "sink"],
       Action.element_link "source" "filter"]
    let link_failed :=
      [Action.g_printerr "Elements could not be linked.\n", Action.object_unref "pipeline"]
    if env.linked 0 != true then { trace := t1 ++ link_failed, ret := some (-1) }
    else
      let t2 := t1 ++ [Action.element_link "filter" "sink"]
      if env.linked 1 != true then { trace := t2 ++ link_failed, ret := some (-1) }
      else
        let t3 := t2 ++
          [Action.g_object_set "source" "pattern" (Arg.int 0),
           Action.g_object_set "filter" "speed" (Arg.real "0.01"),
           Action.set_state "pipeline" GstState.PLAYING]
        if env.play = GstStateChangeReturn.FAILURE then
          { trace := t3 ++
              [Action.g_printerr "Unable to set the pipeline to the playing state.\n",
               Action.object_unref "pipeline"]
            ret := some (-1) }
        else
          let t4 := t3 ++
            [Action.get_bus "bus" "pipeline",
             Action.bus_timed_pop_filtered "bus" [GstMessageType.ERROR, GstMessageType.EOS]]
          match env.bus with
          | [] => { trace := t4, ret := none }
          | msg :: _ =>
            { trace := t4 ++
                (match msg with
                 | some m => parse_message m ++ [Action.message_unref]
                 | none => []) ++
                [Action.object_unref "bus",
                 Action.set_state "pipeline" GstState.NULL,
                 Action.object_unref "pipeline"]
              ret := some 0 }

end T02

namespace T03
open Gst

/-- The body of the `do ... while (!terminate)` loop of `main` of tutorial
03 for one popped message, without the pop itself: the calls made and the
new value of `terminate`. -/
def handle (msg : Option GstMessage) : List Action × Bool :=
  match msg with
  | none => ([], false)
  | some m =>
    match m.type with
    | GstMessageType.ERROR => (error_report m ++ [Action.message_unref], true)
    | GstMessageType.EOS =>
      ([Action.g_print "End-Of-Stream reached.\n", Action.message_unref], true)
    | GstMessageType.STATE_CHANGED =>
      ((if m.from_pipeline then
          [Action.g_print
             ("Pipeline state changed from " ++ gst_element_state_get_name m.old_state ++
              " to " ++ gst_element_state_get_name m.new_state ++ ":\n")]
        else []) ++ [Action.message_unref], false)
    | GstMessageType.OTHER =>
      ([Action.g_printerr "Unexpected message received.\n", Action.message_unref], false)

/-- The bus loop of tutorial 03 over what the pops return: the calls made
and whether the loop ends (it does not when the bus runs dry before an ERROR
or EOS message, the pop then waiting forever). -/
def bus_loop : List (Option GstMessage) → List Action × Bool
  | [] =>
    ([Action.bus_timed_pop_filtered "bus"
        [GstMessageType.STATE_CHANGED, GstMessageType.ERROR, GstMessageType.EOS]], false)
  | msg :: rest =>
    let pop := Action.bus_timed_pop_filtered "bus"
      [GstMessageType.STATE_CHANGED, GstMessageType.ERROR, GstMessageType.EOS]
    let r := handle msg
    if r.2 then (pop :: r.1, true)
    else
      let r2 := bus_loop rest
      (pop :: r.1 ++ r2.1, r2.2)

/-- The `main` of 03.build pipeline dynamically. -/
def main (env : Env) : Run :=
  let t0 :=
    [Action.gst_init,
     Action.factory_make "data.source" "uridecodebin" "source",
     Action.factory_make "data.videoconvert" "videoconvert" "videoconvert",
     Action.factory_make "data.videosink" "autovideosink" "videosink",
     Action.factory_make "data.audioconvert" "audioconvert" "audioconvert",
     Action.factory_make "data.audioresample" "audioresample" "resample",
     Action.factory_make "data.audiosink" "autoaudiosink" "audiosink",
     Action.pipeline_new "data.pipeline" "test-pipeline"]
  if !env.made "data.pipeline" || !env.made "data.source" ||
      !env.made "data.videoconvert" || !env.made "data.videosink" ||
      !env.made "data.audioconvert" || !env.made "data.audioresample" ||
      !env.made "data.audiosink" then
    { trace := t0 ++ [Action.g_printerr "Not all elements could be created.\n"]
      ret := some (-1) }
  else
    let t1 := t0 ++
      [Action.bin_add_many "data.pipeline"
         ["data.source", "data.videoconvert", "data.videosink",
          "data.audioconvert", "data.audioresample", "data.audiosink"],
       Action.element_link_many ["data.videoconvert", "data.videosink"]]
    let link_failed :=
      [Action.g_printerr "Elements could not be linked.\n", Action.object_unref "data.pipeline"]
    if !env.linked 0 then { trace := t1 ++ link_failed, ret := some (-1) }
    else
      let t2 := t1 ++
        [Action.element_link_many ["data.audioconvert", "data.audioresample", "data.audiosink"]]
      if !env.linked 1 then { trace := t2 ++ link_failed, ret := some (-1) }
      else
        let t3 := t2 ++
          [Action.g_object_set "data.source" "uri" (Arg.str sintel_uri),
           Action.signal_connect "data.source" "pad-added" "pad_added_handler",
           Action.set_state "data.pipeline" GstState.PLAYING]
        if env.play = GstStateChangeReturn.FAILURE then
          { trace := t3 ++
              [Action.g_printerr "Unable to set the pipeline to the playing state.\n",
               Action.object_unref "data.pipeline"]
            ret := some (-1) }
        else
          let t4 := t3 ++ [Action.get_bus "bus" "data.pipeline"]
          let r := bus_loop env.bus
          if r.2 then
            { trace := t4 ++ r.1 ++
                [Action.object_unref "bus",
                 Action.set_state "data.pipeline" GstState.NULL,
                 Action.object_unref "data.pipeline"]
              ret := some 0 }
          else { trace := t4 ++ r.1, ret := none }

end T03

namespace T06
open Gst

/-- The body of the `do ... while (!terminate)` loop of `main` of tutorial
06 for one popped message, without the pop itself. -/
def handle (msg : Option GstMessage) : List Action × Bool :=
  match msg with
  | none => ([], false)
  | some m =>
    match m.type with
    | GstMessageType.ERROR => (error_report m ++ [Action.message_unref], true)
    | GstMessageType.EOS =>
      ([Action.g_print "End-Of-Stream reached.\n", Action.message_unref], true)
    | GstMessageType.STATE_CHANGED =>
      ((if m.from_pipeline then
          [Action.g_print
             ("\nPipeline state changed from " ++ gst_element_state_get_name m.old_state ++
              " to " ++ gst_element_state_get_name m.new_state ++ ":\n"),
           Action.print_pad_capabilities "sink" "sink",
           Action.print_pad_capabilities "source" "src"]
        else []) ++ [Action.message_unref], false)
    | GstMessageType.OTHER =>
      ([Action.g_printerr "Unexpected message received.\n", Action.message_unref], false)

/-- The bus loop of tutorial 06 (see `T03.bus_loop`). -/
def bus_loop : List (Option GstMessage) → List Action × Bool
  | [] =>
    ([Action.bus_timed_pop_filtered "bus"
        [GstMessageType.ERROR, GstMessageType.EOS, GstMessageType.STATE_CHANGED]], false)
  | msg :: rest =>
    let pop := Action.bus_timed_pop_filtered "bus"
      [GstMessageType.ERROR, GstMessageType.EOS, GstMessageType.STATE_CHANGED]
    let r := handle msg
    if r.2 then (pop :: r.1, true)
    else
      let r2 := bus_loop rest
      (pop :: r.1 ++ r2.1, r2.2)

/-- The `main` of 06.pad capabilities. -/
def main (env : Env) : Run :=
  let t0 :=
    [Action.gst_init,
     Action.factory_find "source_factory" "audiotestsrc",
     Action.factory_find "sink_factory" "autoaudiosink"]
  if !env.made "source_factory" || !env.made "sink_factory" then
    { trace := t0 ++ [Action.g_printerr "Not all element factories could be created.\n"]
      ret := some (-1) }
  else
    let t1 := t0 ++
      [Action.print_pad_templates_information "source_factory",
       Action.print_pad_templates_information "sink_factory",
       Action.factory_create "source" "source_factory" "source",
       Action.factory_create "sink" "sink_factory" "sink",
       Action.pipeline_new "pipeline" "test-pipeline"]
    if !env.made "pipeline" || !env.made "source" || !env.made "sink" then
      { trace := t1 ++ [Action.g_printerr "Not all elements could be created.\n"]
        ret := some (-1) }
    else
      let t2 := t1 ++
        [Action.bin_add_many "pipeline" ["source", "sink"],
         Action.element_link "source" "sink"]
      if env.linked 0 != true then
        { trace := t2 ++
            [Action.g_printerr "Elements could not be linked.\n", Action.object_unref "pipeline"]
          ret := some (-1) }
      else
        let t3 := t2 ++
          [Action.g_print "In NULL state:\n",
           Action.print_pad_capabilities "sink" "sink",
           Action.set_state "pipeline" GstState.PLAYING] ++
          (if env.play = GstStateChangeReturn.FAILURE then
             [Action.g_printerr
                ("Unable to set the pipeline to the playing state " ++
                 "(check the bus for error messages).\n")]
           else []) ++
          [Action.get_bus "bus" "pipeline"]
        let r := bus_loop env.bus
        if r.2 then
          { trace := t3 ++ r.1 ++
              [Action.object_unref "bus",
               Action.set_state "pipeline" GstState.NULL,
               Action.object_unref "pipeline",
               Action.object_unref "source_factory",
               Action.object_unref "sink_factory"]
            ret := some 0 }
        else { trace := t3 ++ r.1, ret := none }

end T06

namespace T07
open Gst

/-- The `main` of 07.multithreading. -/
def main (env : Env) : Run :=
  let t0 :=
    [Action.gst_init,
     Action.factory_make "audio_source" "audiotestsrc" "audio_source",
     Action.factory_make "tee" "tee" "tee",
     Action.factory_make "audio_queue" "queue" "audio_queue",
     Action.factory_make "audio_convert" "audioconvert" "audio_convert",
     Action.factory_make "audio_resample" "audioresample" "audio_resample",
     Action.factory_make "audio_sink" "autoaudiosink" "audio_sink",
     Action.factory_make "video_queue" "queue" "video_queue",
     Action.factory_make "visual" "wavescope" "visual",
     Action.factory_make "video_convert" "videoconvert" "csp",
     Action.factory_make "video_sink" "autovideosink" "video_sink",
     Action.pipeline_new "pipeline" "test-pipeline"]
  if !env.made "pipeline" || !env.made "audio_source" || !env.made "tee" ||
      !env.made "audio_queue" || !env.made "audio_convert" || !env.made "audio_resample" ||
      !env.made "audio_sink" || !env.made "video_queue" || !env.made "visual" ||
      !env.made "video_convert" || !env.made "video_sink" then
    { trace := t0 ++ [Action.g_printerr "Not all elements could be created.\n"]
      ret := some (-1) }
  else
    let t1 := t0 ++
      [Action.g_object_set "audio_source" "freq" (Arg.real "215.0f"),
       Action.g_object_set "visual" "shader" (Arg.int 0),
       Action.g_object_set "visual" "style" (Arg.int 1),
       Action.bin_add_many "pipeline"
         ["audio_source", "tee", "audio_queue", "audio_convert", "audio_resample",
          "audio_sink", "video_queue", "visual", "video_convert", "video_sink"],
       Action.element_link_many ["audio_source", "tee"]]
    let link_failed :=
      [Action.g_printerr "Elements could not be linked.\n", Action.object_unref "pipeline"]
    if env.linked 0 != true then { trace := t1 ++ link_failed, ret := some (-1) }
    else
      let t2 := t1 ++
        [Action.element_link_many ["audio_queue", "audio_convert", "audio_resample", "audio_sink"]]
      if env.linked 1 != true then { trace := t2 ++ link_failed, ret := some (-1) }
      else
        let t3 := t2 ++
          [Action.element_link_many ["video_queue", "visual", "video_convert", "video_sink"]]
        if env.linked 2 != true then { trace := t3 ++ link_failed, ret := some (-1) }
        else
          let t4 := t3 ++
            [Action.get_static_pad "queue_audio_pad" "audio_queue" "sink",
             Action.get_static_pad "queue_video_pad" "video_queue" "sink",
             Action.request_pad_simple "tee_audio_pad" "tee" "src_%u",
             Action.request_pad_simple "tee_video_pad" "tee" "src_%u",
             Action.g_print "Obtained request pad src_0 for audio branch.\n",
             Action.g_print "Obtained request pad src_1 for video branch.\n",
             Action.pad_link "tee_audio_pad" "queue_audio_pad"]
          let tee_failed :=
            [Action.g_printerr "Tee could not be linked.\n", Action.object_unref "pipeline"]
          if !env.linked 3 then { trace := t4 ++ tee_failed, ret := some (-1) }
          else
            let t5 := t4 ++ [Action.pad_link "tee_video_pad" "queue_video_pad"]
            if !env.linked 4 then { trace := t5 ++ tee_failed, ret := some (-1) }
            else
              let t6 := t5 ++
                [Action.object_unref "queue_audio_pad",
                 Action.object_unref "queue_video_pad",
                 Action.set_state "pipeline" GstState.PLAYING,
                 Action.get_bus "bus" "pipeline",
                 Action.bus_timed_pop_filtered "bus" [GstMessageType.ERROR, GstMessageType.EOS]]
              match env.bus with
              | [] => { trace := t6, ret := none }
              | msg :: _ =>
                { trace := t6 ++
                    [Action.release_request_pad "tee" "tee_audio_pad",
                     Action.release_request_pad "tee" "tee_video_pad",
                     Action.object_unref "tee_audio_pad",
                     Action.object_unref "tee_video_pad"] ++
                    (if msg.isSome then [Action.message_unref] else []) ++
                    [Action.object_unref "bus",
                     Action.set_state "pipeline" GstState.NULL,
                     Action.object_unref "pipeline"]
                  ret := some 0 }

end T07

namespace T08
open Gst

/-- The `main` of 08.appsrc and appsink.  While `g_main_loop_run` runs, the
callbacks `start_feed`, `stop_feed`, `push_data`, `new_sample` and `error_cb`
are dispatched; none of them is given a call on the pipeline. -/
def main (env : Env) : Run :=
  let t0 :=
    [Action.gst_init,
     Action.factory_make "data.app_src" "appsrc" "audio_source",
     Action.factory_make "data.tee" "tee" "tee",
     Action.factory_make "data.audio_queue" "queue" "audio_queue",
     Action.factory_make "data.audio_convert1" "audioconvert" "audio_convert1",
     Action.factory_make "data.audio_resample" "audioresample" "audio_resample",
     Action.factory_make "data.audio_sink" "autoaudiosink" "audio_sink",
     Action.factory_make "data.video_queue" "queue" "video_queue",
     Action.factory_make "data.audio_convert2" "audioconvert" "audio_convert2",
     Action.factory_make "data.visual" "wavescope" "visual",
     Action.factory_make "data.video_convert" "videoconvert" "video_convert",
     Action.factory_make "data.video_sink" "autovideosink" "video_sink",
     Action.factory_make "data.app_queue" "queue" "app_queue",
     Action.factory_make "data.app_sink" "appsink" "app_sink",
     Action.pipeline_new "data.pipeline" "test-pipeline"]
  if !env.made "data.pipeline" || !env.made "data.app_src" || !env.made "data.tee" ||
      !env.made "data.audio_queue" || !env.made "data.audio_convert1" ||
      !env.made "data.audio_resample" || !env.made "data.audio_sink" ||
      !env.made "data.video_queue" || !env.made "data.audio_convert2" ||
      !env.made "data.visual" || !env.made "data.video_convert" ||
      !env.made "data.video_sink" || !env.made "data.app_queue" ||
      !env.made "data.app_sink" then
    { trace := t0 ++ [Action.g_printerr "Not all elements could be created.\n"]
      ret := some (-1) }
  else
    let t1 := t0 ++
      [Action.g_object_set "data.visual" "shader" (Arg.int 0),
       Action.g_object_set "data.visual" "style" (Arg.int 0),
       Action.audio_info_set_format SAMPLE_RATE 1,
       Action.audio_info_to_caps "audio_caps",
       Action.g_object_set "data.app_src" "caps" (Arg.ref "audio_caps"),
       Action.g_object_set "data.app_src" "format" (Arg.str "GST_FORMAT_TIME"),
       Action.signal_connect "data.app_src" "need-data" "start_feed",
       Action.signal_connect "data.app_src" "enough-data" "stop_feed",
       Action.g_object_set "data.app_sink" "emit-signals" (Arg.bool true),
       Action.g_object_set "data.app_sink" "caps" (Arg.ref "audio_caps"),
       Action.signal_connect "data.app_sink" "new-sample" "new_sample",
       Action.caps_unref "audio_caps",
       Action.bin_add_many "data.pipeline"
         ["data.app_src", "data.tee", "data.audio_queue", "data.audio_convert1",
          "data.audio_resample", "data.audio_sink", "data.video_queue",
          "data.audio_convert2", "data.visual", "data.video_convert", "data.video_sink",
          "data.app_queue", "data.app_sink"],
       Action.element_link_many ["data.app_src", "data.tee"]]
    let link_failed :=
      [Action.g_printerr "Elements could not be linked.\n", Action.object_unref "data.pipeline"]
    if env.linked 0 != true then { trace := t1 ++ link_failed, ret := some (-1) }
    else
      let t2 := t1 ++
        [Action.element_link_many
           ["data.audio_queue", "data.audio_convert1", "data.audio_resample", "data.audio_sink"]]
      if env.linked 1 != true then { trace := t2 ++ link_failed, ret := some (-1) }
      else
        let t3 := t2 ++
          [Action.element_link_many
             ["data.video_queue", "data.audio_convert2", "data.visual", "data.video_convert",
              "data.video_sink"]]
        if env.linked 2 != true then { trace := t3 ++ link_failed, ret := some (-1) }
        else
          let t4 := t3 ++ [Action.element_link_many ["data.app_queue", "data.app_sink"]]
          if env.linked 3 != true then { trace := t4 ++ link_failed, ret := some (-1) }
          else
            let t5 := t4 ++
              [Action.get_static_pad "queue_audio_pad" "data.audio_queue" "sink",
               Action.get_static_pad "queue_video_pad" "data.video_queue" "sink",
               Action.get_static_pad "queue_app_pad" "data.app_queue" "sink",
               Action.request_pad_simple "tee_pad_1" "data.tee" "src_%u",
               Action.request_pad_simple "tee_pad_2" "data.tee" "src_%u",
               Action.request_pad_simple "tee_pad_3" "data.tee" "src_%u",
               Action.g_print "Obtained request pad src_0 for audio branch.\n",
               Action.g_print "Obtained request pad src_1 for video branch.\n",
               Action.g_print "Obtained request pad src_2 for app branch.\n",
               Action.pad_link "tee_pad_1" "queue_audio_pad"]
            let tee_failed :=
              [Action.g_printerr "Tee could not be linked\n",
               Action.object_unref "data.pipeline"]
            if !env.linked 4 then { trace := t5 ++ tee_failed, ret := some (-1) }
            else
              let t6 := t5 ++ [Action.pad_link "tee_pad_2" "queue_video_pad"]
              if !env.linked 5 then { trace := t6 ++ tee_failed, ret := some (-1) }
              else
                let t7 := t6 ++ [Action.pad_link "tee_pad_3" "queue_app_pad"]
                if !env.linked 6 then { trace := t7 ++ tee_failed, ret := some (-1) }
                else
                  let t8 := t7 ++
                    [Action.object_unref "queue_audio_pad",
                     Action.object_unref "queue_video_pad",
                     Action.object_unref "queue_app_pad",
                     Action.get_bus "bus" "data.pipeline",
                     Action.bus_add_signal_watch "bus",
                     Action.signal_connect "bus" "message::error" "error_cb",
                     Action.object_unref "bus",
                     Action.set_state "data.pipeline" GstState.PLAYING,
                     Action.main_loop_new "data.main_loop",
                     Action.main_loop_run "data.main_loop"]
                  if env.loop_quits then
                    { trace := t8 ++
                        [Action.release_request_pad "data.tee" "tee_pad_1",
                         Action.release_request_pad "data.tee" "tee_pad_2",
                         Action.release_request_pad "data.tee" "tee_pad_3",
                         Action.object_unref "tee_pad_1",
                         Action.object_unref "tee_pad_2",
                         Action.object_unref "tee_pad_3",
                         Action.set_state "data.pipeline" GstState.NULL,
                         Action.object_unref "data.pipeline"]
                      ret := some 0 }
                  else { trace := t8, ret := none }

end T08

namespace T09
open Gst

/-- Constant `GST_PLAY_FLAG_VIDEO`. -/
def GST_PLAY_FLAG_VIDEO : Int := 1
/-- Constant `GST_PLAY_FLAG_AUDIO`. -/
def GST_PLAY_FLAG_AUDIO : Int := 2
/-- Constant `GST_PLAY_FLAG_TEXT`. -/
def GST_PLAY_FLAG_TEXT : Int := 4

/-- The value `main` writes back to playbin's `flags`:
`flags |= VIDEO | AUDIO; flags &= ~TEXT` on a `gint` (two's complement, where
the bitwise operations of the integers agree with those of the machine). -/
def set_flags (flags : Int) : Int :=
  Int.land (Int.lor flags (Int.lor GST_PLAY_FLAG_VIDEO GST_PLAY_FLAG_AUDIO))
    (Int.lnot GST_PLAY_FLAG_TEXT)

/-- The media URI played by tutorial 09. -/
def multilingual_uri : String :=
  "https://www.freedesktop.org/software/gstreamer-sdk/data/media/" ++
  "sintel_cropped_multilingual.webm"

/-- The `main` of 09.streams info and change.  While `g_main_loop_run` runs, the
callbacks `handle_message` and `handle_keyboard` are dispatched; they read
and write properties of playbin and quit the loop, and request no state
change and drop no reference to playbin. -/
def main (env : Env) : Run :=
  let t0 := [Action.gst_init, Action.factory_make "data.playbin" "playbin" "playbin"]
  if !env.made "data.playbin" then
    { trace := t0 ++ [Action.g_printerr "Not all elements could be created.\n"]
      ret := some (-1) }
  else
    let t1 := t0 ++
      [Action.g_object_set "data.playbin" "uri" (Arg.str multilingual_uri),
       Action.g_object_get "data.playbin" "flags",
       Action.g_object_set "data.playbin" "flags" (Arg.int (set_flags env.flags)),
       Action.g_object_set "data.playbin" "connection-speed" (Arg.int 56),
       Action.get_bus "bus" "data.playbin",
       Action.bus_add_watch "bus" "handle_message",
       Action.io_channel_new "io_stdin",
       Action.io_add_watch "io_stdin" "handle_keyboard",
       Action.set_state "data.playbin" GstState.PLAYING]
    if env.play = GstStateChangeReturn.FAILURE then
      { trace := t1 ++
          [Action.g_printerr "Unable to set the pipeline to the playing state.\n",
           Action.object_unref "data.playbin"]
        ret := some (-1) }
    else
      let t2 := t1 ++
        [Action.main_loop_new "data.main_loop", Action.main_loop_run "data.main_loop"]
      if env.loop_quits then
        { trace := t2 ++
            [Action.main_loop_unref "data.main_loop",
             Action.io_channel_unref "io_stdin",
             Action.object_unref "bus",
             Action.set_state "data.playbin" GstState.NULL,
             Action.object_unref "data.playbin"]
          ret := some 0 }
      else { trace := t2, ret := none }

end T09

namespace T11
open Gst

/-- The `main` of 11.custom playbin audio sink.  The result of
`gst_element_link_many` is not looked at. -/
def main (env : Env) : Run :=
  let t0 :=
    [Action.gst_init,
     Action.parse_launch "pipeline" ("playbin uri=" ++ sintel_uri),
     Action.factory_make "equalizer" "equalizer-3bands" "equalizer",
     Action.factory_make "convert" "audioconvert" "convert",
     Action.factory_make "sink" "autoaudiosink" "audio_sink"]
  if !env.made "equalizer" || !env.made "convert" || !env.made "sink" then
    { trace := t0 ++ [Action.g_printerr "Not all elements could be created.\n"]
      ret := some (-1) }
  else
    let t1 := t0 ++
      [Action.bin_new "bin" "audio_sink_bin",
       Action.bin_add_many "bin" ["equalizer", "convert", "sink"],
       Action.element_link_many ["equalizer", "convert", "sink"],
       Action.get_static_pad "pad" "equalizer" "sink",
       Action.ghost_pad_new "ghost_pad" "sink" "pad",
       Action.pad_set_active "ghost_pad",
       Action.element_add_pad "bin" "ghost_pad",
       Action.object_unref "pad",
       Action.g_object_set "equalizer" "band0" (Arg.real "0"),
       Action.g_object_set "equalizer" "band1" (Arg.real "-24.0"),
       Action.g_object_set "equalizer" "band2" (Arg.real "-24.0"),
       Action.g_object_set "pipeline" "audio-sink" (Arg.ref "bin"),
       Action.set_state "pipeline" GstState.PLAYING,
       Action.get_bus "bus" "pipeline",
       Action.bus_timed_pop_filtered "bus" [GstMessageType.ERROR, GstMessageType.EOS]]
    match env.bus with
    | [] => { trace := t1, ret := none }
    | msg :: _ =>
      { trace := t1 ++
          (if msg.isSome then [Action.message_unref] else []) ++
          [Action.object_unref "bus",
           Action.set_state "pipeline" GstState.NULL,
           Action.object_unref "pipeline"]
        ret := some 0 }

end T11

namespace Gst

/-- The eight tutorial programs. -/
inductive Tutorial where
  | t01
  | t02
  | t03
  | t06
  | t07
  | t08
  | t09
  | t11
  deriving DecidableEq, Repr

/-- The `main` of each tutorial. -/
def Tutorial.main : Tutorial → Env → Run
  | Tutorial.t01 => T01.main
  | Tutorial.t02 => T02.main
  | Tutorial.t03 => T03.main
  | Tutorial.t06 => T06.main
  | Tutorial.t07 => T07.main
  | Tutorial.t08 => T08.main
  | Tutorial.t09 => T09.main
  | Tutorial.t11 => T11.main

/-- The variable that holds the pipeline (playbin in tutorial 09) in each
tutorial. -/
def Tutorial.pipeline : Tutorial → String
  | Tutorial.t01 => "pipeline"
  | Tutorial.t02 => "pipeline"
  | Tutorial.t03 => "data.pipeline"
  | Tutorial.t06 => "pipeline"
  | Tutorial.t07 => "pipeline"
  | Tutorial.t08 => "data.pipeline"
  | Tutorial.t09 => "data.playbin"
  | Tutorial.t11 => "pipeline"

/-- The calls of a trace that are made on the object `obj`, in order. -/
def calls_on (obj : String) (trace : List Action) : List Action :=
  trace.filter (Action.on obj)

/-- An environment in which every creation and every link succeeds. -/
def Env.good (play : GstStateChangeReturn) (bus : List (Option GstMessage))
    (loop_quits : Bool) : Env :=
  { made := fun _ => true
    linked := fun _ => true
    play := play
    bus := bus
    loop_quits := loop_quits
    flags := 0x617 }

/-- An End-Of-Stream message from the pipeline. -/
def eos_message : GstMessage :=
  { type := GstMessageType.EOS
    from_pipeline := true
    src_name := "test-pipeline"
    err_message := ""
    debug_info := none
    old_state := GstState.VOID_PENDING
    new_state := GstState.VOID_PENDING }

end Gst

namespace Gst

/-- The teardown shape of a run with respect to the object `obj`: if `main`
returns 0, the calls on `obj` end with the request to go to NULL followed by
the unreference, and neither call occurs earlier. -/
def has_teardown (obj : String) (r : Run) : Prop :=
  r.ret = some 0 →
    ∃ pre, calls_on obj r.trace =
        pre ++ [Action.set_state obj GstState.NULL, Action.object_unref obj] ∧
      Action.object_unref obj ∉ pre ∧ Action.set_state obj GstState.NULL ∉ pre

end Gst

namespace T08
open Gst GLib

/-- The `CustomData` record after successive calls of `push_data`, one per
flow result of the list, in order. -/
def push_many (data : CustomData) : List GstFlowReturn → CustomData
  | [] => data
  | ret :: rest => push_many (push_data data ret).data rest

end T08

namespace T09
open Gst

/-- The `gint` fields of `CustomData` of tutorial 09; the `playbin` and
`main_loop` pointers are fixed once `main` has set them. -/
structure CustomData where
  n_video : Int
  n_audio : Int
  n_text : Int
  current_video : Int
  current_audio : Int
  current_text : Int
  deriving DecidableEq, Repr

/-- What `analyze_streams` reads from the tag list of a video stream: the
codec name, if the list has one. -/
structure VideoTags where
  codec : Option String
  deriving DecidableEq, Repr

/-- What `analyze_streams` reads from the tag list of an audio stream. -/
structure AudioTags where
  codec : Option String
  language : Option String
  bitrate : Option Nat
  deriving DecidableEq, Repr

/-- What `analyze_streams` reads from the tag list of a subtitle stream. -/
structure TextTags where
  language : Option String
  deriving DecidableEq, Repr

/-- What the callbacks read from playbin: the stream counts, the tag list of
each stream (NULL for a stream without tags and for an index that has none)
and the current streams. -/
structure Playbin where
  n_video : Int
  n_audio : Int
  n_text : Int
  video_tags : List (Option VideoTags)
  audio_tags : List (Option AudioTags)
  text_tags : List (Option TextTags)
  current_video : Int
  current_audio : Int
  current_text : Int
  deriving DecidableEq, Repr

/-- What the callbacks of tutorial 09 do, in program order. -/
inductive CallbackEvent where
  | g_print (s : String)
  | g_printerr (s : String)
  | g_object_get (property : String)
  | g_object_set (property : String) (value : Int)
  | signal_emit (signal : String) (idx : Int)
  | g_free
  | tag_list_free
  | message_parse_error
  | clear_error
  | message_parse_state_changed
  | main_loop_quit
  | read_line
  deriving DecidableEq, Repr

/-- The conversion of an unsigned value to `int` (`gint`): the low 32 bits
read in two's complement. -/
def to_gint (u : Nat) : Int :=
  if u % 2 ^ 32 < 2 ^ 31 then ((u % 2 ^ 32 : Nat) : Int)
  else ((u % 2 ^ 32 : Nat) : Int) - 2 ^ 32

/-- The body of the first loop of `analyze_streams` for stream `idx`. -/
def video_stream (pb : Playbin) (idx : Nat) : List CallbackEvent :=
  [CallbackEvent.signal_emit "get-video-tags" idx] ++
    (match pb.video_tags.getD idx none with
     | none => []
     | some tags =>
       [CallbackEvent.g_print ("video stream " ++ toString idx ++ ":\n")] ++
         (match tags.codec with
          | some str =>
            [CallbackEvent.g_print ("\t codec: " ++ str ++ "\n"), CallbackEvent.g_free,
             CallbackEvent.tag_list_free]
          | none => []))

/-- The body of the second loop of `analyze_streams` for stream `idx`. -/
def audio_stream (pb : Playbin) (idx : Nat) : List CallbackEvent :=
  [CallbackEvent.signal_emit "get-audio-tags" idx] ++
    (match pb.audio_tags.getD idx none with
     | none => []
     | some tags =>
       [CallbackEvent.g_print ("audio stream " ++ toString idx ++ ":\n")] ++
         (match tags.codec with
          | some str => [CallbackEvent.g_print ("\t codec: " ++ str ++ "\n"), CallbackEvent.g_free]
          | none => []) ++
         (match tags.language with
          | some str =>
            [CallbackEvent.g_print ("\t language: " ++ str ++ "\n"), CallbackEvent.g_free]
          | none => []) ++
         (match tags.bitrate with
          | some rate =>
            [CallbackEvent.g_print ("\t bitrate: " ++ toString (to_gint rate) ++ "\n")]
          | none => []) ++
         [CallbackEvent.tag_list_free])

/-- The body of the third loop of `analyze_streams` for stream `idx`. -/
def text_stream (pb : Playbin) (idx : Nat) : List CallbackEvent :=
  [CallbackEvent.signal_emit "get-text-tags" idx] ++
    (match pb.text_tags.getD idx none with
     | none => []
     | some tags =>
       [CallbackEvent.g_print ("subtitle stream " ++ toString idx ++ ":\n")] ++
         (match tags.language with
          | some str =>
            [CallbackEvent.g_print ("\t language: " ++ str ++ "\n"), CallbackEvent.g_free]
          | none => []) ++
         [CallbackEvent.tag_list_free])

/-- Function `analyze_streams`: reads the stream counts into `data`, prints
the tags of every stream and reads the current streams into `data`.  A loop
`for (idx = 0; idx < n; idx++)` over a `gint` count runs for the indices
below `n`, none when `n` is not positive. -/
def analyze_streams (pb : Playbin) (data : CustomData) : CustomData × List CallbackEvent :=
  let data1 : CustomData :=
    { data with n_video := pb.n_video, n_audio := pb.n_audio, n_text := pb.n_text }
  let ev :=
    [CallbackEvent.g_object_get "n-video", CallbackEvent.g_object_get "n-audio",
     CallbackEvent.g_object_get "n-text",
     CallbackEvent.g_print
       (toString data1.n_video ++ " video stream(s), " ++ toString data1.n_audio ++
        " audio stream(s), " ++ toString data1.n_text ++ " text stream(s)\n"),
     CallbackEvent.g_print "\n"] ++
    ((List.range data1.n_video.toNat).map (video_stream pb)).flatten ++
    [CallbackEvent.g_print "\n"] ++
    ((List.range data1.n_audio.toNat).map (audio_stream pb)).flatten ++
    [CallbackEvent.g_print "\n"] ++
    ((List.range data1.n_text.toNat).map (text_stream pb)).flatten ++
    [CallbackEvent.g_object_get "current-video", CallbackEvent.g_object_get "current-audio",
     CallbackEvent.g_object_get "current-text"]
  let data2 : CustomData :=
    { data1 with
      current_video := pb.current_video
      current_audio := pb.current_audio
      current_text := pb.current_text }
  (data2, ev ++
    [CallbackEvent.g_print "\n",
     CallbackEvent.g_print
       ("Currently playing video stream " ++ toString data2.current_video ++
        ", audio stream " ++ toString data2.current_audio ++ " and text stream " ++
        toString data2.current_text ++ "\n"),
     CallbackEvent.g_print
       "Type any number and hit ENTER to select a different audio stream\n"])

/-- Function `handle_message`: the bus watch.  `msg.from_pipeline` says
whether the source of the message is playbin.  The last component is the
`gboolean` returned to the bus. -/
def handle_message (pb : Playbin) (data : CustomData) (msg : GstMessage) :
    CustomData × List CallbackEvent × Bool :=
  let r : CustomData × List CallbackEvent :=
    match msg.type with
    | GstMessageType.ERROR =>
      (data,
        [CallbackEvent.message_parse_error,
         CallbackEvent.g_printerr
           ("Error received from element " ++ msg.src_name ++ ": " ++ msg.err_message ++ "\n"),
         CallbackEvent.g_printerr
           ("Debugging information: " ++ (match msg.debug_info with
                                          | some d => d
                                          | none => "none") ++ "\n"),
         CallbackEvent.clear_error, CallbackEvent.g_free, CallbackEvent.main_loop_quit])
    | GstMessageType.EOS =>
      (data, [CallbackEvent.g_print "End-Of-Stream reached.\n", CallbackEvent.main_loop_quit])
    | GstMessageType.STATE_CHANGED =>
      if msg.from_pipeline then
        if msg.new_state = GstState.PLAYING then
          let a := analyze_streams pb data
          (a.1, CallbackEvent.message_parse_state_changed :: a.2)
        else (data, [CallbackEvent.message_parse_state_changed])
      else (data, [CallbackEvent.message_parse_state_changed])
    | GstMessageType.OTHER => (data, [])
  (r.1, r.2, true)

/-- Function `handle_keyboard`: the watch on standard input.  `line` is
`none` when `g_io_channel_read_line` does not report `G_IO_STATUS_NORMAL`;
otherwise it holds the `guint64` that `g_ascii_strtoull (str, NULL, 0)`
returns for the line read, which the C code stores in an `int`. -/
def handle_keyboard (data : CustomData) (line : Option Nat) : List CallbackEvent × Bool :=
  ([CallbackEvent.read_line] ++
    (match line with
     | some u =>
       let index := to_gint u
       if index < 0 || index >= data.n_audio then
         [CallbackEvent.g_printerr "Index out of bounds\n"]
       else
         [CallbackEvent.g_print ("Setting current audio stream to " ++ toString index ++ "\n"),
          CallbackEvent.g_object_set "current-audio" index]
     | none => []) ++
    [CallbackEvent.g_free], true)

end T09

namespace Gst

/-- The variables that hold the elements a tutorial creates by factory name
and the pipeline it creates with `gst_pipeline_new`, as its creation check
lists them. -/
def Tutorial.created : Tutorial → List String
  | Tutorial.t01 => []
  | Tutorial.t02 => ["pipeline", "source", "filter", "sink"]
  | Tutorial.t03 =>
    ["data.pipeline", "data.source", "data.videoconvert", "data.videosink",
     "data.audioconvert", "data.audioresample", "data.audiosink"]
  | Tutorial.t06 => ["pipeline", "source", "sink"]
  | Tutorial.t07 =>
    ["pipeline", "audio_source", "tee", "audio_queue", "audio_convert", "audio_resample",
     "audio_sink", "video_queue", "visual", "video_convert", "video_sink"]
  | Tutorial.t08 =>
    ["data.pipeline", "data.app_src", "data.tee", "data.audio_queue", "data.audio_convert1",
     "data.audio_resample", "data.audio_sink", "data.video_queue", "data.audio_convert2",
     "data.visual", "data.video_convert", "data.video_sink", "data.app_queue", "data.app_sink"]
  | Tutorial.t09 => ["data.playbin"]
  | Tutorial.t11 => ["equalizer", "convert", "sink"]

/-- The number of link calls (element links and pad links) in the text of
each `main`; `Env.linked` numbers them from 0. -/
def Tutorial.links : Tutorial → Nat
  | Tutorial.t01 => 0
  | Tutorial.t02 => 2
  | Tutorial.t03 => 2
  | Tutorial.t06 => 1
  | Tutorial.t07 => 5
  | Tutorial.t08 => 7
  | Tutorial.t09 => 0
  | Tutorial.t11 => 1

/-- Whether the call adds elements to a bin, links elements or pads, or
requests a state change. -/
def Action.builds : Action → Bool
  | Action.bin_add_many _ _ => true
  | Action.element_link _ _ => true
  | Action.element_link_many _ => true
  | Action.pad_link _ _ => true
  | Action.set_state _ _ => true
  | _ => false

/-- The line printed when an element is missing. -/
def elements_error : Action :=
  Action.g_printerr "Not all elements could be created.\n"

/-- The line tutorial 06 prints when a factory is missing. -/
def factories_error : Action :=
  Action.g_printerr "Not all element factories could be created.\n"

/-- A run that stops at a failed creation check: it returns -1, has built
nothing, and its last call prints the creation error. -/
def creation_aborts (r : Run) : Prop :=
  r.ret = some (-1) ∧ (∀ a ∈ r.trace, Action.builds a = false) ∧
  r.trace.getLast? = some elements_error

/-- A run that stops at one of the two creation checks of tutorial 06: as
`creation_aborts`, but the last call may print the factories line instead,
and then `alt` holds. -/
def creation_aborts_or (alt : Prop) (r : Run) : Prop :=
  r.ret = some (-1) ∧ (∀ a ∈ r.trace, Action.builds a = false) ∧
  (r.trace.getLast? = some elements_error ∨ (alt ∧ r.trace.getLast? = some factories_error))

/-- A run that aborts before the request to set `obj` to PLAYING. -/
def link_aborts (obj : String) (r : Run) : Prop :=
  r.ret = some (-1) ∧ Action.set_state obj GstState.PLAYING ∉ r.trace

/-- An environment in which every creation succeeds and every link fails. -/
def Env.unlinked (bus : List (Option GstMessage)) : Env :=
  { made := fun _ => true
    linked := fun _ => false
    play := GstStateChangeReturn.ASYNC
    bus := bus
    loop_quits := true
    flags := 0x617 }

/-- An environment in which the object of variable `v` cannot be created and
everything else succeeds. -/
def Env.missing (v : String) : Env :=
  { made := fun x => x != v
    linked := fun _ => true
    play := GstStateChangeReturn.ASYNC
    bus := []
    loop_quits := true
    flags := 0 }

/-- The request pads a run obtains, as (element, pad variable) pairs in
program order. -/
def requested_pads (trace : List Action) : List (String × String) :=
  trace.filterMap (fun a =>
    match a with
    | Action.request_pad_simple v e _ => some (e, v)
    | _ => none)

/-- The request pads a run releases, as (element, pad variable) pairs in
program order. -/
def released_pads (trace : List Action) : List (String × String) :=
  trace.filterMap (fun a =>
    match a with
    | Action.release_request_pad e p => some (e, p)
    | _ => none)

/-- The release discipline of a run that returns 0 with `n` request pads and
pipeline `obj`: `n` pads are requested and `n` released, and every requested
pad is released exactly once and unreferenced exactly once, the release
coming before the unreference and before the request to set `obj` to NULL. -/
def pads_released (obj : String) (n : Nat) (r : Run) : Prop :=
  r.ret = some 0 →
    (requested_pads r.trace).length = n ∧
    (released_pads r.trace).length = n ∧
    ∀ ep ∈ requested_pads r.trace,
      r.trace.count (Action.release_request_pad ep.1 ep.2) = 1 ∧
      r.trace.count (Action.object_unref ep.2) = 1 ∧
      r.trace.indexOf (Action.release_request_pad ep.1 ep.2)
        < r.trace.indexOf (Action.object_unref ep.2) ∧
      r.trace.indexOf (Action.release_request_pad ep.1 ep.2)
        < r.trace.indexOf (Action.set_state obj GstState.NULL)

end Gst

namespace T08
open Gst GLib

/-- The registration invariant of the feeding machine: the main context
never hands out id 0, and either no `push_data` idle source is attached or
exactly one is, whose id is the non-zero `sourceid`. -/
def one_source (w : World) : Prop :=
  w.loop.next_id ≠ 0 ∧
  (w.loop.sources = [] ∨ (w.data.sourceid ≠ 0 ∧ w.loop.sources = [w.data.sourceid]))

end T08

namespace Gst

/-- A run that returns 0 and tears `obj` down: the calls on `obj` end with
the request to go to NULL followed by the unreference, and neither call
occurs earlier. -/
def tears_down (obj : String) (r : Run) : Prop :=
  r.ret = some 0 ∧
  ∃ pre, calls_on obj r.trace =
      pre ++ [Action.set_state obj GstState.NULL, Action.object_unref obj] ∧
    Action.object_unref obj ∉ pre ∧ Action.set_state obj GstState.NULL ∉ pre

end Gst

/-! ## Part II. Theorems -/

namespace T08
open Gst GLib

/-- The buffer that `push_data` stamps does not depend on the flow result. -/
theorem push_data_buffer (data : CustomData) (ret : GstFlowReturn) :
    (push_data data ret).buffer =
      { size := CHUNK_SIZE
        timestamp := gst_util_uint64_scale data.num_samples GST_SECOND SAMPLE_RATE
        duration := gst_util_uint64_scale (CHUNK_SIZE / 2) GST_SECOND SAMPLE_RATE } := by
  unfold push_data
  split <;> rfl

/-- C1 (as the code has it): when the scaled sample count fits the 64-bit
timestamp field, the buffer pushed at counter value `n` carries
`timestamp = floor (n * 10^9 / 44100)`; for every `n`, fitting or not, its
duration is `floor (512 * 10^9 / 44100) = 11609977` nanoseconds. -/
theorem push_data_stamps (data : CustomData) (ret : GstFlowReturn) :
    (data.num_samples * 1000000000 / 44100 < 2 ^ 64 →
      (push_data data ret).buffer.timestamp = data.num_samples * 1000000000 / 44100) ∧
    (push_data data ret).buffer.duration = 512 * 1000000000 / 44100 ∧
    (push_data data ret).buffer.duration = 11609977 := by
  rw [push_data_buffer]
  refine ⟨?_, ?_, ?_⟩
  · intro hfit
    have hle : data.num_samples * 1000000000 / 44100 ≤ 2 ^ 64 - 1 := by omega
    simp only [gst_util_uint64_scale, GST_SECOND, SAMPLE_RATE, G_MAXUINT64]
    rw [if_neg (by decide), if_pos hle]
  · simp [gst_util_uint64_scale, GST_SECOND, SAMPLE_RATE, G_MAXUINT64, CHUNK_SIZE]
  · simp [gst_util_uint64_scale, GST_SECOND, SAMPLE_RATE, G_MAXUINT64, CHUNK_SIZE]

/-- Witness of `push_data_stamps`: the timestamp after one second of audio
(n = 44100, which fits), and the duration both there and at n = 2^63, where
the timestamp does not fit. -/
theorem push_data_stamps_witness :
    44100 * 1000000000 / 44100 < 2 ^ 64 ∧
    (push_data { num_samples := 44100, sourceid := 1 } GstFlowReturn.OK).buffer.timestamp
        = 44100 * 1000000000 / 44100 ∧
    (push_data { num_samples := 44100, sourceid := 1 } GstFlowReturn.OK).buffer.duration
        = 11609977 ∧
    ¬ (2 ^ 63 * 1000000000 / 44100 < 2 ^ 64) ∧
    (push_data { num_samples := 2 ^ 63, sourceid := 1 } GstFlowReturn.ERROR).buffer.duration
        = 11609977 :=
  ⟨by decide,
   (push_data_stamps { num_samples := 44100, sourceid := 1 } GstFlowReturn.OK).1 (by decide),
   (push_data_stamps { num_samples := 44100, sourceid := 1 } GstFlowReturn.OK).2.2,
   by norm_num,
   (push_data_stamps { num_samples := 2 ^ 63, sourceid := 1 } GstFlowReturn.ERROR).2.2⟩

/-- C1 as stated fails for a large counter: at `num_samples = 2^63` (a valid
`guint64`) the pushed timestamp is the saturated `G_MAXUINT64`, not
`floor (2^63 * 10^9 / 44100)`, which does not fit in 64 bits. -/
theorem push_data_stamp_saturates :
    (2 : Nat) ^ 63 < 2 ^ 64 ∧
    (push_data { num_samples := 2 ^ 63, sourceid := 0 } GstFlowReturn.OK).buffer.timestamp
        = 2 ^ 64 - 1 ∧
    (push_data { num_samples := 2 ^ 63, sourceid := 0 } GstFlowReturn.OK).buffer.timestamp
        ≠ 2 ^ 63 * 1000000000 / 44100 := by
  refine ⟨by norm_num, ?_, ?_⟩ <;>
    simp [push_data, gst_util_uint64_scale, GST_SECOND, SAMPLE_RATE, G_MAXUINT64, CHUNK_SIZE]

/-- C4 (failing input): after `need-data`, one dispatch of `push_data` whose
push is refused, and a second `need-data`, no idle handler is registered:
GLib has dropped the source because `push_data` returned FALSE, `sourceid`
still holds its id, and `start_feed` therefore adds nothing. -/
theorem start_feed_after_failed_push :
    registered (run World.init [FeedEvent.need_data]) = true ∧
    (push_data (run World.init [FeedEvent.need_data]).data GstFlowReturn.ERROR).keep = false ∧
    registered (run World.init
      [FeedEvent.need_data, FeedEvent.idle 1 GstFlowReturn.ERROR, FeedEvent.need_data]) = false ∧
    (run World.init
      [FeedEvent.need_data, FeedEvent.idle 1 GstFlowReturn.ERROR, FeedEvent.need_data]).data.sourceid
        = 1 ∧
    (run World.init
      [FeedEvent.need_data, FeedEvent.idle 1 GstFlowReturn.ERROR, FeedEvent.need_data]).loop.sources
        = [] := by
  decide

/-- C5: `new_sample` returns `GST_FLOW_OK` exactly when a sample was pulled,
and then drops that sample exactly once; with no sample it returns
`GST_FLOW_ERROR` and drops nothing. -/
theorem new_sample_flow (sample : Option Nat) :
    ((new_sample sample).1 = GstFlowReturn.OK ↔ sample.isSome = true) ∧
    (∀ s, sample = some s →
      (new_sample sample).1 = GstFlowReturn.OK ∧
      (new_sample sample).2.count (SampleEvent.sample_unref s) = 1 ∧
      ∀ t, SampleEvent.sample_unref t ∈ (new_sample sample).2 → t = s) ∧
    (sample = none →
      (new_sample sample).1 = GstFlowReturn.ERROR ∧
      ∀ t, SampleEvent.sample_unref t ∉ (new_sample sample).2) := by
  cases sample with
  | none => simp [new_sample]
  | some s => simp [new_sample]

end T08

namespace T03
open Gst

/-- C2 (failing input): `uridecodebin` announces the video pad `src_0`, the
handler links it to `videoconvert`; the audio branch is still free.  A second
announcement of the same pad does not take the early exit (that needs both
converters linked): the handler attempts the link again, the library answers
`GST_PAD_LINK_WAS_LINKED`, and the handler prints the link failure.  The
links themselves are unchanged. -/
theorem pad_added_twice_attempts_link :
    (pad_added_handler { links := [] } "source" (Pad.source_src 0)
        (some (raw_caps "video/x-raw")) GstPadLinkReturn.OK).1
      = { links := [(Pad.source_src 0, Pad.videoconvert_sink)] } ∧
    link_attempts
      (pad_added_handler { links := [(Pad.source_src 0, Pad.videoconvert_sink)] } "source"
        (Pad.source_src 0) (some (raw_caps "video/x-raw")) GstPadLinkReturn.OK).2
      = [(Pad.source_src 0, Pad.videoconvert_sink)] ∧
    PadEvent.pad_link (Pad.source_src 0) Pad.videoconvert_sink GstPadLinkReturn.WAS_LINKED ∈
      (pad_added_handler { links := [(Pad.source_src 0, Pad.videoconvert_sink)] } "source"
        (Pad.source_src 0) (some (raw_caps "video/x-raw")) GstPadLinkReturn.OK).2 ∧
    PadEvent.g_print "Type is 'video/x-raw' but link failed.\n" ∈
      (pad_added_handler { links := [(Pad.source_src 0, Pad.videoconvert_sink)] } "source"
        (Pad.source_src 0) (some (raw_caps "video/x-raw")) GstPadLinkReturn.OK).2 ∧
    (pad_added_handler { links := [(Pad.source_src 0, Pad.videoconvert_sink)] } "source"
        (Pad.source_src 0) (some (raw_caps "video/x-raw")) GstPadLinkReturn.OK).1
      = { links := [(Pad.source_src 0, Pad.videoconvert_sink)] } := by
  decide

end T03

namespace T03
open Gst

/-- The link attempts of a handler call that does not take the early exit,
by the three branches on the caps name. -/
theorem link_attempts_no_exit (g : PadGraph) (src : String) (new_pad : Pad)
    (caps : Option GstCaps) (check : GstPadLinkReturn)
    (hexit : (gst_pad_is_linked g Pad.videoconvert_sink &&
      gst_pad_is_linked g Pad.audioconvert_sink) = false) :
    link_attempts (pad_added_handler g src new_pad caps check).2 =
      if g_str_has_prefix (gst_structure_get_name (gst_caps_get_structure caps 0)) "video/x-raw"
      then [(new_pad, Pad.videoconvert_sink)]
      else if
        g_str_has_prefix (gst_structure_get_name (gst_caps_get_structure caps 0)) "audio/x-raw"
      then [(new_pad, Pad.audioconvert_sink)]
      else [] := by
  unfold pad_added_handler
  simp only [hexit]
  by_cases hv :
      g_str_has_prefix (gst_structure_get_name (gst_caps_get_structure caps 0)) "video/x-raw" = true
  · cases caps <;> simp [hv, link_attempts, handler_exit]
  · by_cases ha :
        g_str_has_prefix (gst_structure_get_name (gst_caps_get_structure caps 0)) "audio/x-raw"
          = true
    · cases caps <;> simp [hv, ha, link_attempts, handler_exit]
    · cases caps <;> simp [hv, ha, link_attempts, handler_exit]

/-- No text starts with both `video/x-raw` and `audio/x-raw`. -/
theorem not_video_of_audio (l : List Char) (ha : "audio/x-raw".toList <+: l) :
    ¬ "video/x-raw".toList <+: l := by
  intro hv
  have h := List.prefix_of_prefix_length_le ha hv (by decide)
  revert h
  decide

/-- C3: when the handler does not take the already-linked early exit, it
routes the new pad by the name of structure 0 of its current caps: a name
starting with `video/x-raw` gives exactly one link attempt, new pad to the
`videoconvert` sink pad; a name starting with `audio/x-raw` exactly one, new
pad to the `audioconvert` sink pad; any other name (and a missing name) gives
no link attempt. -/
theorem pad_added_routes_by_name (g : PadGraph) (src : String) (new_pad : Pad)
    (caps : Option GstCaps) (check : GstPadLinkReturn)
    (hexit : (gst_pad_is_linked g Pad.videoconvert_sink &&
      gst_pad_is_linked g Pad.audioconvert_sink) = false) :
    (∀ name, gst_structure_get_name (gst_caps_get_structure caps 0) = some name →
      ("video/x-raw".toList <+: name.toList →
        link_attempts (pad_added_handler g src new_pad caps check).2
          = [(new_pad, Pad.videoconvert_sink)]) ∧
      ("audio/x-raw".toList <+: name.toList →
        link_attempts (pad_added_handler g src new_pad caps check).2
          = [(new_pad, Pad.audioconvert_sink)]) ∧
      (¬ "video/x-raw".toList <+: name.toList → ¬ "audio/x-raw".toList <+: name.toList →
        link_attempts (pad_added_handler g src new_pad caps check).2 = [])) ∧
    (gst_structure_get_name (gst_caps_get_structure caps 0) = none →
      link_attempts (pad_added_handler g src new_pad caps check).2 = []) := by
  rw [link_attempts_no_exit g src new_pad caps check hexit]
  refine ⟨?_, ?_⟩
  · intro name hname
    rw [hname]
    simp only [ g_str_has_prefix, List.isPrefixOf_iff_prefix]
    refine ⟨?_, ?_, ?_⟩
    · intro hv
      rw [if_pos hv]
    · intro ha
      rw [if_neg (not_video_of_audio _ ha), if_pos ha]
    · intro hv ha
      rw [if_neg hv, if_neg ha]
  · intro hnone
    rw [hnone]
    simp [ g_str_has_prefix]

/-- Witness of `pad_added_routes_by_name`: nothing is linked yet and the new
pad `src_1` carries raw audio. -/
theorem pad_added_routes_by_name_witness :
    (gst_pad_is_linked { links := [] } Pad.videoconvert_sink &&
      gst_pad_is_linked { links := [] } Pad.audioconvert_sink) = false ∧
    link_attempts (pad_added_handler { links := [] } "source" (Pad.source_src 1)
        (some (raw_caps "audio/x-raw")) GstPadLinkReturn.OK).2
      = [(Pad.source_src 1, Pad.audioconvert_sink)] :=
  ⟨by decide,
   ((pad_added_routes_by_name { links := [] } "source" (Pad.source_src 1)
      (some (raw_caps "audio/x-raw")) GstPadLinkReturn.OK (by decide)).1
      "audio/x-raw" (by decide)).2.1 (by decide)⟩

end T03

namespace T06
open Gst

/-- With `print_field` as the callback, `gst_structure_foreach` visits every
field: the callback never asks to stop. -/
theorem foreach_print_field (fields : List GstField) (pfx : String) :
    gst_structure_foreach fields print_field pfx = (fields.map (field_line pfx), true) := by
  induction fields with
  | nil => rfl
  | cons f rest ih =>
    simp [gst_structure_foreach, ih, print_field, field_line]

/-- The loop body of `print_caps` at an index inside the caps prints the dump
of that structure. -/
theorem print_caps_body_eq (caps : GstCaps) (pfx : String) (i : Nat) (st : GstStructure)
    (hi : caps.structs[i]? = some st) :
    print_caps_body caps pfx i = structure_dump pfx st := by
  simp [print_caps_body, gst_caps_get_structure, hi, gst_structure_get_name, fmt_s,
    foreach_print_field, structure_dump]

/-- The loop of `print_caps` over all indices prints the dumps of the
structures in order. -/
theorem print_caps_loop (pfx : String) (any : Bool) (structs : List GstStructure) :
    ((List.range (gst_caps_get_size { any := any, structs := structs })).map
        (print_caps_body { any := any, structs := structs } pfx)).flatten
      = (structs.map (structure_dump pfx)).flatten := by
  congr 1
  apply List.ext_getElem
  · simp [gst_caps_get_size]
  · intro i h1 h2
    simp only [List.getElem_map, List.getElem_range]
    apply print_caps_body_eq
    simp only [List.length_map] at h2
    simp [h2]

/-- C6: for every line start `pfx`, ANY caps print exactly the one line
`pfx` followed by `ANY`, and caps that are not ANY and hold no structure
print exactly the one line `pfx` followed by `EMPTY`; neither prints a
structure name or a field line. -/
theorem print_caps_any_empty (pfx : String) (structs : List GstStructure) :
    print_caps (some { any := true, structs := structs }) pfx = [pfx ++ "ANY\n"] ∧
    print_caps (some { any := false, structs := [] }) pfx = [pfx ++ "EMPTY\n"] := by
  constructor <;> simp [print_caps, gst_caps_is_any, gst_caps_is_empty]

/-- C7: for caps that are neither ANY nor EMPTY, `print_caps` prints the
structures in index order, each as one line with the line start and the
structure name followed by one line per field in field order, none skipped;
the number of lines is the sum over the structures of 1 + number of
fields. -/
theorem print_caps_structures (pfx : String) (st : GstStructure) (rest : List GstStructure) :
    print_caps (some { any := false, structs := st :: rest }) pfx
      = ((st :: rest).map (fun s =>
          (pfx ++ s.name ++ "\n") ::
            s.fields.map (fun f =>
              pfx ++ " " ++ pad15 f.name ++ ": " ++ fmt_s f.svalue ++ "\n"))).flatten ∧
    (print_caps (some { any := false, structs := st :: rest }) pfx).length
      = ((st :: rest).map (fun s => 1 + s.fields.length)).sum := by
  have h : print_caps (some { any := false, structs := st :: rest }) pfx
      = ((st :: rest).map (structure_dump pfx)).flatten := by
    simp only [print_caps, gst_caps_is_any, gst_caps_is_empty]
    simp only [Bool.false_eq_true, if_false, Bool.not_false, List.isEmpty_cons, Bool.and_false]
    exact print_caps_loop pfx false (st :: rest)
  constructor
  · rw [h]
    rfl
  · rw [h, List.length_flatten, List.map_map]
    congr 1
    apply List.map_congr_left
    intro s _
    simp [structure_dump, Nat.add_comm]

end T06

namespace Gst

/-- A trace that splits into a front part without teardown calls and a tail
whose calls on the pipeline are the NULL request and the unreference has the
teardown shape. -/
theorem teardown_of_split (obj : String) (front tail : List Action)
    (htail : calls_on obj tail =
      [Action.set_state obj GstState.NULL, Action.object_unref obj])
    (hunref : Action.object_unref obj ∉ front)
    (hnull : Action.set_state obj GstState.NULL ∉ front) :
    ∃ pre, calls_on obj (front ++ tail) =
        pre ++ [Action.set_state obj GstState.NULL, Action.object_unref obj] ∧
      Action.object_unref obj ∉ pre ∧ Action.set_state obj GstState.NULL ∉ pre := by
  refine ⟨calls_on obj front, ?_, ?_, ?_⟩
  · simp [calls_on, List.filter_append] at htail ⊢
    exact htail
  · intro h
    exact hunref (List.mem_of_mem_filter h)
  · intro h
    exact hnull (List.mem_of_mem_filter h)

/-- A property of both branches of a conditional holds of the conditional. -/
theorem ite_rule (G : Run → Prop) (c : Prop) [Decidable c] (a b : Run) (ha : G a) (hb : G b) :
    G (if c then a else b) := by
  split <;> assumption

/-- A property that holds of each branch of a conditional under its
condition holds of the conditional. -/
theorem ite_rule_cond (G : Run → Prop) (c : Prop) [Decidable c] (a b : Run)
    (ha : c → G a) (hb : ¬ c → G b) : G (if c then a else b) := by
  split
  · exact ha ‹_›
  · exact hb ‹_›

end Gst


namespace T01
open Gst

/-- The teardown of tutorial 01 on the path that returns 0. -/
theorem main_teardown_01 (env : Env) : has_teardown "pipeline" (main env) := by
  unfold main
  dsimp only
  cases env.bus with
  | nil => intro h; exact absurd h (by decide)
  | cons msg rest =>
    intro _
    apply teardown_of_split
    · decide
    · cases msg <;> simp
    · cases msg <;> simp

end T01

namespace T02
open Gst

/-- The teardown of tutorial 02 on the path that returns 0. -/
theorem main_teardown_02 (env : Env) : has_teardown "pipeline" (main env) := by
  unfold main
  dsimp only
  repeat' apply ite_rule
  all_goals try (intro h; first | exact absurd h (by decide) | (simp at h; done))
  cases env.bus with
  | nil => intro h; exact absurd h (by decide)
  | cons msg rest =>
    intro _
    apply teardown_of_split
    · decide
    · cases msg with
      | none => decide
      | some m => cases hm : m.type <;> simp [parse_message, error_report, hm]
    · cases msg with
      | none => decide
      | some m => cases hm : m.type <;> simp [parse_message, error_report, hm]

end T02

namespace T03
open Gst

/-- The loop body of tutorial 03 drops no reference to an element and
requests no state change. -/
theorem handle_quiet_03 (msg : Option GstMessage) :
    ∀ a ∈ (handle msg).1,
      (∀ o, a ≠ Action.object_unref o) ∧ (∀ o s, a ≠ Action.set_state o s) := by
  cases msg with
  | none => simp [handle]
  | some m =>
    cases hm : m.type <;> by_cases hp : m.from_pipeline = true <;>
      simp [handle, hm, hp, error_report]

/-- The bus loop of tutorial 03 drops no reference to an element and
requests no state change. -/
theorem bus_loop_quiet_03 (bus : List (Option GstMessage)) :
    ∀ a ∈ (bus_loop bus).1,
      (∀ o, a ≠ Action.object_unref o) ∧ (∀ o s, a ≠ Action.set_state o s) := by
  induction bus with
  | nil => simp [bus_loop]
  | cons msg rest ih =>
    intro a ha
    unfold bus_loop at ha
    dsimp only at ha
    split_ifs at ha
    · simp only [List.mem_cons] at ha
      rcases ha with ha | ha
      · subst ha; simp
      · exact handle_quiet_03 msg a ha
    · simp only [List.mem_cons, List.mem_append] at ha
      rcases ha with (ha | ha) | ha
      · subst ha; simp
      · exact handle_quiet_03 msg a ha
      · exact ih a ha

/-- The teardown of tutorial 03 on the path that returns 0. -/
theorem main_teardown_03 (env : Env) : has_teardown "data.pipeline" (main env) := by
  unfold main
  dsimp only
  repeat' apply ite_rule
  all_goals try (intro h; first | exact absurd h (by decide) | (simp at h; done))
  intro _
  apply teardown_of_split
  · decide
  · intro hmem
    simp only [List.mem_append] at hmem
    rcases hmem with hmem | hmem
    · revert hmem
      decide
    · exact (bus_loop_quiet_03 env.bus _ hmem).1 _ rfl
  · intro hmem
    simp only [List.mem_append] at hmem
    rcases hmem with hmem | hmem
    · revert hmem
      decide
    · exact (bus_loop_quiet_03 env.bus _ hmem).2 _ _ rfl

end T03

namespace T06
open Gst

/-- The loop body of tutorial 06 drops no reference to an element and
requests no state change. -/
theorem handle_quiet_06 (msg : Option GstMessage) :
    ∀ a ∈ (handle msg).1,
      (∀ o, a ≠ Action.object_unref o) ∧ (∀ o s, a ≠ Action.set_state o s) := by
  cases msg with
  | none => simp [handle]
  | some m =>
    cases hm : m.type <;> by_cases hp : m.from_pipeline = true <;>
      simp [handle, hm, hp, error_report]

/-- The bus loop of tutorial 06 drops no reference to an element and
requests no state change. -/
theorem bus_loop_quiet_06 (bus : List (Option GstMessage)) :
    ∀ a ∈ (bus_loop bus).1,
      (∀ o, a ≠ Action.object_unref o) ∧ (∀ o s, a ≠ Action.set_state o s) := by
  induction bus with
  | nil => simp [bus_loop]
  | cons msg rest ih =>
    intro a ha
    unfold bus_loop at ha
    dsimp only at ha
    split_ifs at ha
    · simp only [List.mem_cons] at ha
      rcases ha with ha | ha
      · subst ha; simp
      · exact handle_quiet_06 msg a ha
    · simp only [List.mem_cons, List.mem_append] at ha
      rcases ha with (ha | ha) | ha
      · subst ha; simp
      · exact handle_quiet_06 msg a ha
      · exact ih a ha

/-- The teardown of tutorial 06 on the path that returns 0. -/
theorem main_teardown_06 (env : Env) : has_teardown "pipeline" (main env) := by
  unfold main
  dsimp only
  repeat' apply ite_rule
  all_goals try (intro h; first | exact absurd h (by decide) | (simp at h; done))
  intro _
  apply teardown_of_split
  · decide
  · intro hmem
    simp only [List.mem_append] at hmem
    rcases hmem with hmem | hmem
    · revert hmem
      split <;> decide
    · exact (bus_loop_quiet_06 env.bus _ hmem).1 _ rfl
  · intro hmem
    simp only [List.mem_append] at hmem
    rcases hmem with hmem | hmem
    · revert hmem
      split <;> decide
    · exact (bus_loop_quiet_06 env.bus _ hmem).2 _ _ rfl

end T06

namespace T07
open Gst

/-- The teardown of tutorial 07 on the path that returns 0. -/
theorem main_teardown_07 (env : Env) : has_teardown "pipeline" (main env) := by
  unfold main
  dsimp only
  repeat' apply ite_rule
  all_goals try (intro h; first | exact absurd h (by decide) | (simp at h; done))
  cases env.bus with
  | nil => intro h; exact absurd h (by decide)
  | cons msg rest =>
    intro _
    apply teardown_of_split
    · decide
    · cases msg <;> simp
    · cases msg <;> simp

end T07

namespace T08
open Gst

/-- The teardown of tutorial 08 on the path that returns 0. -/
theorem main_teardown_08 (env : Env) : has_teardown "data.pipeline" (main env) := by
  unfold main
  dsimp only
  repeat' apply ite_rule
  all_goals intro h
  all_goals first
    | exact absurd h (by decide)
    | (simp at h; done)
    | (apply teardown_of_split <;> decide)

end T08

namespace T09
open Gst

/-- The teardown of tutorial 09 on the path that returns 0. -/
theorem main_teardown_09 (env : Env) : has_teardown "data.playbin" (main env) := by
  unfold main
  dsimp only
  repeat' apply ite_rule
  all_goals intro h
  all_goals first
    | exact absurd h (by decide)
    | (simp at h; done)
    | (apply teardown_of_split <;> first | decide | simp)

end T09

namespace T11
open Gst

/-- The teardown of tutorial 11 on the path that returns 0. -/
theorem main_teardown_11 (env : Env) : has_teardown "pipeline" (main env) := by
  unfold main
  dsimp only
  repeat' apply ite_rule
  all_goals try (intro h; first | exact absurd h (by decide) | (simp at h; done))
  cases env.bus with
  | nil => intro h; exact absurd h (by decide)
  | cons msg rest =>
    intro _
    apply teardown_of_split
    · decide
    · cases msg <;> simp
    · cases msg <;> simp

end T11

namespace Gst

/-- C8: every tutorial `main` has a path that returns 0 (all creations and
links succeed and the stream ends), and on every path that returns 0 the
calls on the pipeline (playbin in tutorial 09) end with the request to go to
NULL followed by the unreference; the unreference is the last call on it,
and neither an unreference nor another NULL request precedes, so that no
state change is requested after the NULL request. -/
theorem normal_exit_teardown (t : Tutorial) (env : Env) :
    (t.main (Env.good GstStateChangeReturn.ASYNC [some eos_message] true)).ret = some 0 ∧
    ((t.main env).ret = some 0 →
      ∃ pre, calls_on t.pipeline (t.main env).trace =
          pre ++ [Action.set_state t.pipeline GstState.NULL, Action.object_unref t.pipeline] ∧
        Action.object_unref t.pipeline ∉ pre ∧
        Action.set_state t.pipeline GstState.NULL ∉ pre) := by
  cases t
  · exact ⟨by decide, T01.main_teardown_01 env⟩
  · exact ⟨by decide, T02.main_teardown_02 env⟩
  · exact ⟨by decide, T03.main_teardown_03 env⟩
  · exact ⟨by decide, T06.main_teardown_06 env⟩
  · exact ⟨by decide, T07.main_teardown_07 env⟩
  · exact ⟨by decide, T08.main_teardown_08 env⟩
  · exact ⟨by decide, T09.main_teardown_09 env⟩
  · exact ⟨by decide, T11.main_teardown_11 env⟩

/-- Witness of `normal_exit_teardown`: each of the eight tutorials, with
everything created and linked and an End-Of-Stream message on the bus (the
main loop quitting in 08 and 09), returns 0 and tears its pipeline down. -/
theorem normal_exit_teardown_witness :
    tears_down "pipeline"
      (Tutorial.t01.main (Env.good GstStateChangeReturn.ASYNC [some eos_message] true)) ∧
    tears_down "pipeline"
      (Tutorial.t02.main (Env.good GstStateChangeReturn.ASYNC [some eos_message] true)) ∧
    tears_down "data.pipeline"
      (Tutorial.t03.main (Env.good GstStateChangeReturn.ASYNC [some eos_message] true)) ∧
    tears_down "pipeline"
      (Tutorial.t06.main (Env.good GstStateChangeReturn.ASYNC [some eos_message] true)) ∧
    tears_down "pipeline"
      (Tutorial.t07.main (Env.good GstStateChangeReturn.ASYNC [some eos_message] true)) ∧
    tears_down "data.pipeline"
      (Tutorial.t08.main (Env.good GstStateChangeReturn.ASYNC [some eos_message] true)) ∧
    tears_down "data.playbin"
      (Tutorial.t09.main (Env.good GstStateChangeReturn.ASYNC [some eos_message] true)) ∧
    tears_down "pipeline"
      (Tutorial.t11.main (Env.good GstStateChangeReturn.ASYNC [some eos_message] true)) :=
  ⟨⟨(normal_exit_teardown Tutorial.t01
        (Env.good GstStateChangeReturn.ASYNC [some eos_message] true)).1,
     (normal_exit_teardown Tutorial.t01
        (Env.good GstStateChangeReturn.ASYNC [some eos_message] true)).2
       (normal_exit_teardown Tutorial.t01
          (Env.good GstStateChangeReturn.ASYNC [some eos_message] true)).1⟩,
   ⟨(normal_exit_teardown Tutorial.t02
        (Env.good GstStateChangeReturn.ASYNC [some eos_message] true)).1,
     (normal_exit_teardown Tutorial.t02
        (Env.good GstStateChangeReturn.ASYNC [some eos_message] true)).2
       (normal_exit_teardown Tutorial.t02
          (Env.good GstStateChangeReturn.ASYNC [some eos_message] true)).1⟩,
   ⟨(normal_exit_teardown Tutorial.t03
        (Env.good GstStateChangeReturn.ASYNC [some eos_message] true)).1,
     (normal_exit_teardown Tutorial.t03
        (Env.good GstStateChangeReturn.ASYNC [some eos_message] true)).2
       (normal_exit_teardown Tutorial.t03
          (Env.good GstStateChangeReturn.ASYNC [some eos_message] true)).1⟩,
   ⟨(normal_exit_teardown Tutorial.t06
        (Env.good GstStateChangeReturn.ASYNC [some eos_message] true)).1,
     (normal_exit_teardown Tutorial.t06
        (Env.good GstStateChangeReturn.ASYNC [some eos_message] true)).2
       (normal_exit_teardown Tutorial.t06
          (Env.good GstStateChangeReturn.ASYNC [some eos_message] true)).1⟩,
   ⟨(normal_exit_teardown Tutorial.t07
        (Env.good GstStateChangeReturn.ASYNC [some eos_message] true)).1,
     (normal_exit_teardown Tutorial.t07
        (Env.good GstStateChangeReturn.ASYNC [some eos_message] true)).2
       (normal_exit_teardown Tutorial.t07
          (Env.good GstStateChangeReturn.ASYNC [some eos_message] true)).1⟩,
   ⟨(normal_exit_teardown Tutorial.t08
        (Env.good GstStateChangeReturn.ASYNC [some eos_message] true)).1,
     (normal_exit_teardown Tutorial.t08
        (Env.good GstStateChangeReturn.ASYNC [some eos_message] true)).2
       (normal_exit_teardown Tutorial.t08
          (Env.good GstStateChangeReturn.ASYNC [some eos_message] true)).1⟩,
   ⟨(normal_exit_teardown Tutorial.t09
        (Env.good GstStateChangeReturn.ASYNC [some eos_message] true)).1,
     (normal_exit_teardown Tutorial.t09
        (Env.good GstStateChangeReturn.ASYNC [some eos_message] true)).2
       (normal_exit_teardown Tutorial.t09
          (Env.good GstStateChangeReturn.ASYNC [some eos_message] true)).1⟩,
   ⟨(normal_exit_teardown Tutorial.t11
        (Env.good GstStateChangeReturn.ASYNC [some eos_message] true)).1,
     (normal_exit_teardown Tutorial.t11
        (Env.good GstStateChangeReturn.ASYNC [some eos_message] true)).2
       (normal_exit_teardown Tutorial.t11
          (Env.good GstStateChangeReturn.ASYNC [some eos_message] true)).1⟩⟩

/-- C9 (failing input): in tutorials 02, 03 and 09, when every element is
created and linked and the request to go to PLAYING returns FAILURE, `main`
returns -1 and its last two calls on the pipeline are that PLAYING request
and the unreference: no request to go to NULL comes between them. -/
theorem failed_play_unref_without_null :
    (T02.main (Env.good GstStateChangeReturn.FAILURE [] false)).ret = some (-1) ∧
    calls_on "pipeline" (T02.main (Env.good GstStateChangeReturn.FAILURE [] false)).trace =
      [Action.pipeline_new "pipeline" "test-pipeline",
       Action.bin_add_many "pipeline" ["source", "filter", "sink"],
       Action.set_state "pipeline" GstState.PLAYING,
       Action.object_unref "pipeline"] ∧
    (T03.main (Env.good GstStateChangeReturn.FAILURE [] false)).ret = some (-1) ∧
    calls_on "data.pipeline" (T03.main (Env.good GstStateChangeReturn.FAILURE [] false)).trace =
      [Action.pipeline_new "data.pipeline" "test-pipeline",
       Action.bin_add_many "data.pipeline"
         ["data.source", "data.videoconvert", "data.videosink",
          "data.audioconvert", "data.audioresample", "data.audiosink"],
       Action.set_state "data.pipeline" GstState.PLAYING,
       Action.object_unref "data.pipeline"] ∧
    (T09.main (Env.good GstStateChangeReturn.FAILURE [] false)).ret = some (-1) ∧
    (calls_on "data.playbin"
        (T09.main (Env.good GstStateChangeReturn.FAILURE [] false)).trace).reverse.take 2 =
      [Action.object_unref "data.playbin",
       Action.set_state "data.playbin" GstState.PLAYING] := by
  decide

end Gst

namespace T02
open Gst

end T02

namespace T03
open Gst

end T03

namespace T09
open Gst

end T09

namespace T01
open Gst

end T01

namespace T06
open Gst

end T06

namespace T07
open Gst

end T07

namespace T08
open Gst

end T08

namespace T11
open Gst

end T11

namespace Gst

end Gst

namespace T08
open Gst GLib

/-- One call of `push_data` advances the sample counter by 512 modulo 2^64
and leaves `sourceid` alone, whatever the flow result. -/
theorem push_data_data (data : CustomData) (ret : GstFlowReturn) :
    (push_data data ret).data =
      { num_samples := (data.num_samples + 512) % 2 ^ 64, sourceid := data.sourceid } := by
  unfold push_data
  split <;> simp [CHUNK_SIZE]

/-- The sample counter after a sequence of calls of `push_data`, in closed
form. -/
theorem push_many_count (data : CustomData) (rets : List GstFlowReturn) :
    (push_many data rets).num_samples
      = if rets = [] then data.num_samples
        else (data.num_samples + 512 * rets.length) % 2 ^ 64 := by
  induction rets generalizing data with
  | nil => simp [push_many]
  | cons ret rest ih =>
    rw [push_many, ih, push_data_data]
    by_cases hr : rest = []
    · subst hr
      simp
    · simp only [hr, if_false, List.length_cons, reduceCtorEq]
      simp only [Nat.mod_add_mod, Nat.add_mod_mod]
      congr 1
      ring

/-- C17 (as the code has it): each call of `push_data` advances `num_samples`
by 512 modulo 2^64, whether or not the push was accepted, which is an
increase by exactly 512 while the sum fits in 64 bits; after k calls starting
from 0 the counter is 512 * k modulo 2^64, which is 512 * k while that is
below 2^64. -/
theorem push_data_counts (data : CustomData) (ret : GstFlowReturn) (rets : List GstFlowReturn) :
    (push_data data ret).data.num_samples = (data.num_samples + 512) % 2 ^ 64 ∧
    (data.num_samples + 512 < 2 ^ 64 →
      (push_data data ret).data.num_samples = data.num_samples + 512) ∧
    (push_many { num_samples := 0, sourceid := data.sourceid } rets).num_samples
      = 512 * rets.length % 2 ^ 64 ∧
    (512 * rets.length < 2 ^ 64 →
      (push_many { num_samples := 0, sourceid := data.sourceid } rets).num_samples
        = 512 * rets.length) := by
  have h1 : (push_data data ret).data.num_samples = (data.num_samples + 512) % 2 ^ 64 := by
    rw [push_data_data]
  have h3 : (push_many { num_samples := 0, sourceid := data.sourceid } rets).num_samples
      = 512 * rets.length % 2 ^ 64 := by
    rw [push_many_count]
    by_cases hr : rets = []
    · subst hr
      simp
    · simp [hr]
  refine ⟨h1, ?_, h3, ?_⟩
  · intro hlt
    rw [h1, Nat.mod_eq_of_lt hlt]
  · intro hlt
    rw [h3, Nat.mod_eq_of_lt hlt]

/-- C17 as stated fails at the 64-bit boundary: the call made at
`num_samples = 2^64 - 512` leaves the counter at 0, and after 2^55 calls
starting from 0 the counter is 0, not 512 * 2^55. -/
theorem push_data_count_wraps :
    (push_data { num_samples := 2 ^ 64 - 512, sourceid := 1 } GstFlowReturn.OK).data.num_samples
      = 0 ∧
    (push_data { num_samples := 2 ^ 64 - 512, sourceid := 1 } GstFlowReturn.OK).data.num_samples
      ≠ 2 ^ 64 - 512 + 512 ∧
    (push_many { num_samples := 0, sourceid := 1 }
        (List.replicate (2 ^ 55) GstFlowReturn.OK)).num_samples = 0 ∧
    (push_many { num_samples := 0, sourceid := 1 }
        (List.replicate (2 ^ 55) GstFlowReturn.OK)).num_samples ≠ 512 * 2 ^ 55 := by
  have h : (push_many { num_samples := 0, sourceid := 1 }
      (List.replicate (2 ^ 55) GstFlowReturn.OK)).num_samples = 0 := by
    rw [push_many_count, List.length_replicate]
    have hne : List.replicate (2 ^ 55) GstFlowReturn.OK ≠ [] := by
      intro hnil
      have hlen := congrArg List.length hnil
      rw [List.length_replicate] at hlen
      exact absurd hlen (by norm_num)
    rw [if_neg hne]
    norm_num
  refine ⟨?_, ?_, h, ?_⟩
  · rw [push_data_data]
    norm_num
  · rw [push_data_data]
    norm_num
  · rw [h]
    norm_num

/-- C18: `push_data` returns TRUE exactly when the `push-buffer` emission
reported `GST_FLOW_OK` and FALSE for every other flow result; on both
outcomes its calls on the buffer are allocate, map, unmap, push, unref, so
the buffer is dropped exactly once, after the push. -/
theorem push_data_keep_and_unref (data : CustomData) (ret : GstFlowReturn) :
    ((push_data data ret).keep = true ↔ ret = GstFlowReturn.OK) ∧
    ((push_data data ret).keep = false ↔ ret ≠ GstFlowReturn.OK) ∧
    (push_data data ret).events =
      [BufferEvent.new_and_alloc CHUNK_SIZE, BufferEvent.map_write, BufferEvent.unmap,
       BufferEvent.push_buffer (push_data data ret).buffer, BufferEvent.buffer_unref] ∧
    (push_data data ret).events.count BufferEvent.buffer_unref = 1 ∧
    (push_data data ret).events.indexOf (BufferEvent.push_buffer (push_data data ret).buffer)
      < (push_data data ret).events.indexOf BufferEvent.buffer_unref := by
  have hev : (push_data data ret).events =
      [BufferEvent.new_and_alloc CHUNK_SIZE, BufferEvent.map_write, BufferEvent.unmap,
       BufferEvent.push_buffer (push_data data ret).buffer, BufferEvent.buffer_unref] := by
    unfold push_data
    split <;> rfl
  refine ⟨?_, ?_, hev, ?_, ?_⟩
  · unfold push_data
    split <;> simp_all
  · unfold push_data
    split <;> simp_all
  · rw [hev]
    simp
  · rw [hev]
    simp [List.indexOf_cons]

/-- C19: two consecutive buffers of `push_data` neither overlap nor leave a
gap of more than one nanosecond, while the second timestamp fits in 64 bits:
the first timestamp plus the duration is at most the second timestamp, which
is at most one more; timestamps increase strictly.  At `num_samples = 512 * k`
the two timestamps are `floor (512 * k * 10^9 / 44100)` and
`floor (512 * (k + 1) * 10^9 / 44100)`. -/
theorem consecutive_buffers (data : CustomData) (ret1 ret2 : GstFlowReturn)
    (hfit : (data.num_samples + 512) * 1000000000 / 44100 < 2 ^ 64) :
    (push_data data ret1).buffer.timestamp + (push_data data ret1).buffer.duration
      ≤ (push_data (push_data data ret1).data ret2).buffer.timestamp ∧
    (push_data (push_data data ret1).data ret2).buffer.timestamp
      ≤ (push_data data ret1).buffer.timestamp + (push_data data ret1).buffer.duration + 1 ∧
    (push_data data ret1).buffer.timestamp
      < (push_data (push_data data ret1).data ret2).buffer.timestamp ∧
    (∀ k, data.num_samples = 512 * k →
      (push_data data ret1).buffer.timestamp = 512 * k * 1000000000 / 44100 ∧
      (push_data data ret1).buffer.duration = 512 * 1000000000 / 44100 ∧
      (push_data (push_data data ret1).data ret2).buffer.timestamp
        = 512 * (k + 1) * 1000000000 / 44100) := by
  have hn : data.num_samples + 512 < 2 ^ 64 := by omega
  have h1 : (push_data data ret1).buffer.timestamp = data.num_samples * 1000000000 / 44100 := by
    rw [push_data_buffer]
    simp only [gst_util_uint64_scale, GST_SECOND, SAMPLE_RATE, G_MAXUINT64]
    rw [if_neg (by decide), if_pos (by omega)]
  have hd : (push_data data ret1).buffer.duration = 11609977 := by
    rw [push_data_buffer]
    simp [gst_util_uint64_scale, GST_SECOND, SAMPLE_RATE, G_MAXUINT64, CHUNK_SIZE]
  have h2 : (push_data (push_data data ret1).data ret2).buffer.timestamp
      = (data.num_samples + 512) * 1000000000 / 44100 := by
    rw [push_data_buffer, push_data_data]
    simp only [gst_util_uint64_scale, GST_SECOND, SAMPLE_RATE, G_MAXUINT64]
    rw [if_neg (by decide), Nat.mod_eq_of_lt hn, if_pos (by omega)]
  rw [h1, hd, h2]
  refine ⟨by omega, by omega, by omega, ?_⟩
  intro k hk
  rw [hk]
  refine ⟨rfl, by norm_num, ?_⟩
  congr 2

/-- Witness of `consecutive_buffers`: the buffers at sample counts 512 and
1024. -/
theorem consecutive_buffers_witness :
    (512 + 512) * 1000000000 / 44100 < 2 ^ 64 ∧
    (push_data { num_samples := 512, sourceid := 1 } GstFlowReturn.OK).buffer.timestamp
        + (push_data { num_samples := 512, sourceid := 1 } GstFlowReturn.OK).buffer.duration
      ≤ (push_data (push_data { num_samples := 512, sourceid := 1 } GstFlowReturn.OK).data
          GstFlowReturn.OK).buffer.timestamp ∧
    (push_data (push_data { num_samples := 512, sourceid := 1 } GstFlowReturn.OK).data
          GstFlowReturn.OK).buffer.timestamp
      ≤ (push_data { num_samples := 512, sourceid := 1 } GstFlowReturn.OK).buffer.timestamp
        + (push_data { num_samples := 512, sourceid := 1 } GstFlowReturn.OK).buffer.duration + 1 :=
  ⟨by decide,
   (consecutive_buffers { num_samples := 512, sourceid := 1 } GstFlowReturn.OK GstFlowReturn.OK
      (by decide)).1,
   (consecutive_buffers { num_samples := 512, sourceid := 1 } GstFlowReturn.OK GstFlowReturn.OK
      (by decide)).2.1⟩

/-- C20 (failing input): after `need-data` and one dispatch of `push_data`
whose push is refused, `sourceid` is 1 but no idle source with id 1 (nor any
other) is registered; a following `enough-data` has `stop_feed` call
`g_source_remove` on that stale id, which GLib answers with FALSE. -/
theorem stale_sourceid_after_failed_push :
    (run World.init [FeedEvent.need_data, FeedEvent.idle 1 GstFlowReturn.ERROR]).data.sourceid
      = 1 ∧
    (run World.init [FeedEvent.need_data, FeedEvent.idle 1 GstFlowReturn.ERROR]).loop.sources
      = [] ∧
    (g_source_remove
        (run World.init [FeedEvent.need_data, FeedEvent.idle 1 GstFlowReturn.ERROR]).loop
        (run World.init
          [FeedEvent.need_data, FeedEvent.idle 1 GstFlowReturn.ERROR]).data.sourceid).1
      = false ∧
    (run World.init
        [FeedEvent.need_data, FeedEvent.idle 1 GstFlowReturn.ERROR, FeedEvent.enough_data]).out
      = ["Start feeding\n", "Stop feeding\n"] := by
  decide

end T08

namespace T09
open Gst

/-- C14: `handle_message` returns TRUE for every message, whatever its type
and source and whatever playbin reports. -/
theorem handle_message_stays (pb : Playbin) (data : CustomData) (msg : GstMessage) :
    (handle_message pb data msg).2.2 = true := by
  rfl

/-- C15: `handle_keyboard` sets no property but `current-audio`, and that
only to a value `v` with `0 <= v < n_audio`; when the index parsed from the
line is negative or at least `n_audio` it prints "Index out of bounds" and
sets no property; an index in range is set.  It always returns TRUE. -/
theorem handle_keyboard_bounds (data : CustomData) (line : Option Nat) :
    (handle_keyboard data line).2 = true ∧
    (∀ p v, CallbackEvent.g_object_set p v ∈ (handle_keyboard data line).1 →
      p = "current-audio" ∧ 0 ≤ v ∧ v < data.n_audio) ∧
    (∀ u, line = some u → (to_gint u < 0 ∨ data.n_audio ≤ to_gint u) →
      CallbackEvent.g_printerr "Index out of bounds\n" ∈ (handle_keyboard data line).1 ∧
      ∀ p v, CallbackEvent.g_object_set p v ∉ (handle_keyboard data line).1) ∧
    (∀ u, line = some u → 0 ≤ to_gint u → to_gint u < data.n_audio →
      CallbackEvent.g_object_set "current-audio" (to_gint u) ∈ (handle_keyboard data line).1) := by
  refine ⟨rfl, ?_, ?_, ?_⟩
  · intro p v hmem
    cases line with
    | none => simp [handle_keyboard] at hmem
    | some u =>
      by_cases hb : to_gint u < 0 ∨ data.n_audio ≤ to_gint u
      · simp [handle_keyboard, hb] at hmem
      · simp [handle_keyboard, hb] at hmem
        obtain ⟨hp, hv⟩ := hmem
        subst hp hv
        push_neg at hb
        exact ⟨rfl, hb.1, hb.2⟩
  · intro u hu hb
    subst hu
    simp [handle_keyboard, hb]
  · intro u hu h0 hn
    subst hu
    have hb : ¬ (to_gint u < 0 ∨ data.n_audio ≤ to_gint u) := by
      push_neg
      exact ⟨h0, hn⟩
    simp [handle_keyboard, hb]

end T09

namespace T09
open Gst

/-- The bit `i` of the value written back to `flags`. -/
theorem testBit_set_flags (f : Int) (i : Nat) :
    Int.testBit (set_flags f) i =
      ((Int.testBit f i || Int.testBit 3 i) && !Int.testBit 4 i) := by
  unfold set_flags GST_PLAY_FLAG_VIDEO GST_PLAY_FLAG_AUDIO GST_PLAY_FLAG_TEXT
  rw [Int.testBit_land, Int.testBit_lor, Int.testBit_lnot]
  rfl

/-- The value written back to `flags` stays a `gint` when the value read is
one, so that the bitwise operations of the integers are those of the
machine. -/
theorem set_flags_range (f : Int) (hlo : -2 ^ 31 ≤ f) (hhi : f < 2 ^ 31) :
    -2 ^ 31 ≤ set_flags f ∧ set_flags f < 2 ^ 31 := by
  unfold set_flags GST_PLAY_FLAG_VIDEO GST_PLAY_FLAG_AUDIO GST_PLAY_FLAG_TEXT
  cases f with
  | ofNat n =>
    have hn : n < 2 ^ 31 := by
      have : (n : Int) < 2 ^ 31 := hhi
      exact_mod_cast this
    have h1 : n ||| 3 < 2 ^ 31 := Nat.or_lt_two_pow hn (by norm_num)
    have h2 : Nat.ldiff (n ||| 3) 4 < 2 ^ 31 := Nat.bitwise_lt_two_pow h1 (by norm_num)
    show -2 ^ 31 ≤ ((Nat.ldiff (n ||| 3) 4 : Nat) : Int) ∧
      ((Nat.ldiff (n ||| 3) 4 : Nat) : Int) < 2 ^ 31
    constructor
    · have : (0 : Int) ≤ ((Nat.ldiff (n ||| 3) 4 : Nat) : Int) := Int.natCast_nonneg _
      omega
    · exact_mod_cast h2
  | negSucc n =>
    have hn : n < 2 ^ 31 := by
      have h : -2 ^ 31 ≤ Int.negSucc n := hlo
      rw [Int.negSucc_eq] at h
      omega
    have h1 : Nat.ldiff n 3 < 2 ^ 31 := Nat.bitwise_lt_two_pow hn (by norm_num)
    have h2 : Nat.ldiff n 3 ||| 4 < 2 ^ 31 := Nat.or_lt_two_pow h1 (by norm_num)
    show -2 ^ 31 ≤ Int.negSucc (Nat.ldiff n 3 ||| 4) ∧
      Int.negSucc (Nat.ldiff n 3 ||| 4) < 2 ^ 31
    rw [Int.negSucc_eq]
    omega

/-- C16: for every initial value `f` of playbin's `flags`, the value `main`
writes back is `(f | 3) & ~4`: bit 0 (VIDEO) and bit 1 (AUDIO) are set,
bit 2 (TEXT) is cleared and every other bit is that of `f`; a `gint` stays a
`gint`; it is the value of the one `g_object_set` call on `flags` whenever
playbin was created. -/
theorem written_flags (f : Int) :
    set_flags f = Int.land (Int.lor f 3) (Int.lnot 4) ∧
    Int.testBit (set_flags f) 0 = true ∧
    Int.testBit (set_flags f) 1 = true ∧
    Int.testBit (set_flags f) 2 = false ∧
    (∀ i, 3 ≤ i → Int.testBit (set_flags f) i = Int.testBit f i) ∧
    (-2 ^ 31 ≤ f → f < 2 ^ 31 → -2 ^ 31 ≤ set_flags f ∧ set_flags f < 2 ^ 31) ∧
    (∀ env : Env, env.flags = f → env.made "data.playbin" = true →
      Action.g_object_set "data.playbin" "flags" (Arg.int (set_flags f)) ∈ (main env).trace ∧
      ∀ v, Action.g_object_set "data.playbin" "flags" v ∈ (main env).trace →
        v = Arg.int (set_flags f)) := by
  refine ⟨rfl, ?_, ?_, ?_, ?_, set_flags_range f, ?_⟩
  · rw [testBit_set_flags]
    have h3 : Int.testBit 3 0 = true := by decide
    have h4 : Int.testBit 4 0 = false := by decide
    simp [h3, h4]
  · rw [testBit_set_flags]
    have h3 : Int.testBit 3 1 = true := by decide
    have h4 : Int.testBit 4 1 = false := by decide
    simp [h3, h4]
  · rw [testBit_set_flags]
    have h4 : Int.testBit 4 2 = true := by decide
    simp [h4]
  · intro i hi
    rw [testBit_set_flags]
    have h3 : Int.testBit 3 i = false := by
      show Nat.testBit 3 i = false
      apply Nat.testBit_lt_two_pow
      calc 3 < 2 ^ 3 := by norm_num
        _ ≤ 2 ^ i := Nat.pow_le_pow_right (by norm_num) hi
    have h4 : Int.testBit 4 i = false := by
      show Nat.testBit 4 i = false
      apply Nat.testBit_lt_two_pow
      calc 4 < 2 ^ 3 := by norm_num
        _ ≤ 2 ^ i := Nat.pow_le_pow_right (by norm_num) hi
    simp [h3, h4]
  · intro env hf hmade
    subst hf
    unfold main
    simp only [hmade]
    constructor <;> (split_ifs <;> simp_all)

end T09

namespace T02
open Gst

/-- Tutorial 02 stops at its creation check when an element is missing. -/
theorem main_creation_02 (env : Env)
    (h : ∃ v ∈ Tutorial.t02.created, env.made v = false) : creation_aborts (main env) := by
  unfold main
  dsimp only
  refine ite_rule_cond _ _ _ _ (fun _ => ?_) (fun hc => ?_)
  · unfold creation_aborts
    decide
  · exfalso
    simp [Tutorial.created] at h hc
    simp_all

end T02

namespace T03
open Gst

/-- Tutorial 03 stops at its creation check when an element is missing. -/
theorem main_creation_03 (env : Env)
    (h : ∃ v ∈ Tutorial.t03.created, env.made v = false) : creation_aborts (main env) := by
  unfold main
  dsimp only
  refine ite_rule_cond _ _ _ _ (fun _ => ?_) (fun hc => ?_)
  · unfold creation_aborts
    decide
  · exfalso
    simp [Tutorial.created] at h hc
    simp_all

end T03

namespace T07
open Gst

/-- Tutorial 07 stops at its creation check when an element is missing. -/
theorem main_creation_07 (env : Env)
    (h : ∃ v ∈ Tutorial.t07.created, env.made v = false) : creation_aborts (main env) := by
  unfold main
  dsimp only
  refine ite_rule_cond _ _ _ _ (fun _ => ?_) (fun hc => ?_)
  · unfold creation_aborts
    decide
  · exfalso
    simp [Tutorial.created] at h hc
    simp_all

end T07

namespace T08
open Gst

/-- Tutorial 08 stops at its creation check when an element is missing. -/
theorem main_creation_08 (env : Env)
    (h : ∃ v ∈ Tutorial.t08.created, env.made v = false) : creation_aborts (main env) := by
  unfold main
  dsimp only
  refine ite_rule_cond _ _ _ _ (fun _ => ?_) (fun hc => ?_)
  · unfold creation_aborts
    decide
  · exfalso
    simp [Tutorial.created] at h hc
    simp_all

end T08

namespace T09
open Gst

/-- Tutorial 09 stops at its creation check when playbin is missing. -/
theorem main_creation_09 (env : Env)
    (h : ∃ v ∈ Tutorial.t09.created, env.made v = false) : creation_aborts (main env) := by
  unfold main
  dsimp only
  refine ite_rule_cond _ _ _ _ (fun _ => ?_) (fun hc => ?_)
  · unfold creation_aborts
    decide
  · exfalso
    simp [Tutorial.created] at h hc
    simp_all

end T09

namespace T11
open Gst

/-- Tutorial 11 stops at its creation check when an element is missing. -/
theorem main_creation_11 (env : Env)
    (h : ∃ v ∈ Tutorial.t11.created, env.made v = false) : creation_aborts (main env) := by
  unfold main
  dsimp only
  refine ite_rule_cond _ _ _ _ (fun _ => ?_) (fun hc => ?_)
  · unfold creation_aborts
    decide
  · exfalso
    simp [Tutorial.created] at h hc
    simp_all

end T11

namespace T06
open Gst

/-- Tutorial 06 stops at one of its two creation checks when an element is
missing: at the first, with the factories line, when a factory is missing
too, and at the second otherwise. -/
theorem main_creation_06 (env : Env)
    (h : ∃ v ∈ Tutorial.t06.created, env.made v = false) :
    creation_aborts_or
      (env.made "source_factory" = false ∨ env.made "sink_factory" = false) (main env) := by
  unfold main
  dsimp only
  refine ite_rule_cond _ _ _ _ (fun hf => ?_) (fun _ => ?_)
  · simp at hf
    exact ⟨rfl, by decide, Or.inr ⟨hf, by decide⟩⟩
  · refine ite_rule_cond _ _ _ _ (fun _ => ?_) (fun hc => ?_)
    · exact ⟨rfl, by decide, Or.inl (by decide)⟩
    · exfalso
      simp [Tutorial.created] at h hc
      simp_all

end T06

namespace Gst

/-- C11: in every tutorial `main` that creates elements by factory name
(02, 03, 06, 07, 08, 09, 11), when one of the created elements (or the
pipeline made by `gst_pipeline_new`) is NULL, `main` returns -1, its last
call prints the creation error, and it has added nothing to a bin, linked
nothing and requested no state change.  (The line is "Not all elements could
be created."; tutorial 06 prints its factories line instead when a factory
is missing as well.) -/
theorem creation_failure_aborts (t : Tutorial) (env : Env)
    (h : ∃ v ∈ t.created, env.made v = false) :
    (t.main env).ret = some (-1) ∧
    (∀ a ∈ (t.main env).trace, Action.builds a = false) ∧
    ((t.main env).trace.getLast? =
        some (Action.g_printerr "Not all elements could be created.\n") ∨
      (t = Tutorial.t06 ∧
        (env.made "source_factory" = false ∨ env.made "sink_factory" = false) ∧
        (t.main env).trace.getLast? =
          some (Action.g_printerr "Not all element factories could be created.\n"))) := by
  cases t
  · simp [Tutorial.created] at h
  · obtain ⟨h1, h2, h3⟩ := T02.main_creation_02 env h
    exact ⟨h1, h2, Or.inl h3⟩
  · obtain ⟨h1, h2, h3⟩ := T03.main_creation_03 env h
    exact ⟨h1, h2, Or.inl h3⟩
  · obtain ⟨h1, h2, h3⟩ := T06.main_creation_06 env h
    refine ⟨h1, h2, ?_⟩
    rcases h3 with h3 | ⟨h3, h4⟩
    · exact Or.inl h3
    · exact Or.inr ⟨rfl, h3, h4⟩
  · obtain ⟨h1, h2, h3⟩ := T07.main_creation_07 env h
    exact ⟨h1, h2, Or.inl h3⟩
  · obtain ⟨h1, h2, h3⟩ := T08.main_creation_08 env h
    exact ⟨h1, h2, Or.inl h3⟩
  · obtain ⟨h1, h2, h3⟩ := T09.main_creation_09 env h
    exact ⟨h1, h2, Or.inl h3⟩
  · obtain ⟨h1, h2, h3⟩ := T11.main_creation_11 env h
    exact ⟨h1, h2, Or.inl h3⟩

/-- Witness of `creation_failure_aborts`: tutorial 08 when `wavescope` is
not installed. -/
theorem creation_failure_aborts_witness :
    (∃ v ∈ Tutorial.t08.created, (Env.missing "data.visual").made v = false) ∧
    (Tutorial.t08.main (Env.missing "data.visual")).ret = some (-1) ∧
    (∀ a ∈ (Tutorial.t08.main (Env.missing "data.visual")).trace, Action.builds a = false) ∧
    (Tutorial.t08.main (Env.missing "data.visual")).trace.getLast? =
      some (Action.g_printerr "Not all elements could be created.\n") :=
  ⟨⟨"data.visual", by decide, by decide⟩,
   (creation_failure_aborts Tutorial.t08 (Env.missing "data.visual")
      ⟨"data.visual", by decide, by decide⟩).1,
   (creation_failure_aborts Tutorial.t08 (Env.missing "data.visual")
      ⟨"data.visual", by decide, by decide⟩).2.1,
   by decide⟩

end Gst

namespace T02
open Gst

/-- Tutorial 02 aborts before PLAYING when a link fails. -/
theorem main_link_02 (env : Env) (h : ∃ n, n < Tutorial.t02.links ∧ env.linked n = false) :
    link_aborts "pipeline" (main env) := by
  unfold main
  dsimp only
  repeat' (refine ite_rule_cond _ _ _ _ (fun _ => ?_) (fun _ => ?_))
  all_goals first
    | (unfold link_aborts; decide)
    | (exfalso
       obtain ⟨n, hn, hf⟩ := h
       simp only [Tutorial.links] at hn
       interval_cases n <;> simp_all)

end T02

namespace T03
open Gst

/-- Tutorial 03 aborts before PLAYING when a link fails. -/
theorem main_link_03 (env : Env) (h : ∃ n, n < Tutorial.t03.links ∧ env.linked n = false) :
    link_aborts "data.pipeline" (main env) := by
  unfold main
  dsimp only
  repeat' (refine ite_rule_cond _ _ _ _ (fun _ => ?_) (fun _ => ?_))
  all_goals first
    | (unfold link_aborts; decide)
    | (exfalso
       obtain ⟨n, hn, hf⟩ := h
       simp only [Tutorial.links] at hn
       interval_cases n <;> simp_all)

end T03

namespace T06
open Gst

/-- Tutorial 06 aborts before PLAYING when its link fails. -/
theorem main_link_06 (env : Env) (h : ∃ n, n < Tutorial.t06.links ∧ env.linked n = false) :
    link_aborts "pipeline" (main env) := by
  unfold main
  dsimp only
  repeat' (refine ite_rule_cond _ _ _ _ (fun _ => ?_) (fun _ => ?_))
  all_goals first
    | (unfold link_aborts; decide)
    | (exfalso
       obtain ⟨n, hn, hf⟩ := h
       simp only [Tutorial.links] at hn
       interval_cases n
       simp_all)

end T06

namespace T07
open Gst

/-- Tutorial 07 aborts before PLAYING when a link fails. -/
theorem main_link_07 (env : Env) (h : ∃ n, n < Tutorial.t07.links ∧ env.linked n = false) :
    link_aborts "pipeline" (main env) := by
  unfold main
  dsimp only
  repeat' (refine ite_rule_cond _ _ _ _ (fun _ => ?_) (fun _ => ?_))
  all_goals first
    | (unfold link_aborts; decide)
    | (exfalso
       obtain ⟨n, hn, hf⟩ := h
       simp only [Tutorial.links] at hn
       interval_cases n <;> simp_all)

end T07

namespace T08
open Gst

/-- Tutorial 08 aborts before PLAYING when a link fails. -/
theorem main_link_08 (env : Env) (h : ∃ n, n < Tutorial.t08.links ∧ env.linked n = false) :
    link_aborts "data.pipeline" (main env) := by
  unfold main
  dsimp only
  repeat' (refine ite_rule_cond _ _ _ _ (fun _ => ?_) (fun _ => ?_))
  all_goals first
    | (unfold link_aborts; decide)
    | (exfalso
       obtain ⟨n, hn, hf⟩ := h
       simp only [Tutorial.links] at hn
       interval_cases n <;> simp_all)

end T08

namespace T11
open Gst

/-- Tutorial 11 makes its link call and its PLAYING request whenever its
elements are created, whatever the link reports. -/
theorem main_link_11 (env : Env) (h : ∀ v ∈ Tutorial.t11.created, env.made v = true) :
    Action.element_link_many ["equalizer", "convert", "sink"] ∈ (main env).trace ∧
    Action.set_state "pipeline" GstState.PLAYING ∈ (main env).trace := by
  simp [Tutorial.created] at h
  unfold main
  simp only [h]
  cases env.bus with
  | nil => simp
  | cons msg rest => simp

end T11

namespace Gst

/-- C12 as stated fails for tutorial 11: its one link call reports failure,
yet `main` goes on to request PLAYING and returns 0 at End-Of-Stream. -/
theorem ignored_link_failure_11 :
    (Env.unlinked [some eos_message]).linked 0 = false ∧
    Action.element_link_many ["equalizer", "convert", "sink"] ∈
      (T11.main (Env.unlinked [some eos_message])).trace ∧
    Action.set_state "pipeline" GstState.PLAYING ∈
      (T11.main (Env.unlinked [some eos_message])).trace ∧
    (T11.main (Env.unlinked [some eos_message])).ret = some 0 := by
  decide

/-- C12 (as the code has it): in tutorials 02, 03, 06, 07 and 08, when an
element link or pad link reports failure, `main` returns -1 and never
requests PLAYING; tutorial 11 does not read the result of its link call and
requests PLAYING whenever its elements are created. -/
theorem link_failure_aborts (t : Tutorial) (env : Env)
    (h : ∃ n, n < t.links ∧ env.linked n = false) :
    ((t = Tutorial.t02 ∨ t = Tutorial.t03 ∨ t = Tutorial.t06 ∨ t = Tutorial.t07 ∨
        t = Tutorial.t08) →
      (t.main env).ret = some (-1) ∧
      Action.set_state t.pipeline GstState.PLAYING ∉ (t.main env).trace) ∧
    (t = Tutorial.t11 → (∀ v ∈ t.created, env.made v = true) →
      Action.element_link_many ["equalizer", "convert", "sink"] ∈ (t.main env).trace ∧
      Action.set_state t.pipeline GstState.PLAYING ∈ (t.main env).trace) := by
  constructor
  · intro ht
    rcases ht with ht | ht | ht | ht | ht <;> subst ht
    · exact T02.main_link_02 env h
    · exact T03.main_link_03 env h
    · exact T06.main_link_06 env h
    · exact T07.main_link_07 env h
    · exact T08.main_link_08 env h
  · intro ht hmade
    subst ht
    exact T11.main_link_11 env hmade

/-- Witness of `link_failure_aborts`: tutorial 07 when no link succeeds. -/
theorem link_failure_aborts_witness :
    (∃ n, n < Tutorial.t07.links ∧ (Env.unlinked []).linked n = false) ∧
    (Tutorial.t07.main (Env.unlinked [])).ret = some (-1) ∧
    Action.set_state Tutorial.t07.pipeline GstState.PLAYING ∉
      (Tutorial.t07.main (Env.unlinked [])).trace :=
  ⟨⟨0, by decide, rfl⟩,
   (link_failure_aborts Tutorial.t07 (Env.unlinked []) ⟨0, by decide, rfl⟩).1
     (Or.inr (Or.inr (Or.inr (Or.inl rfl))))⟩

end Gst

namespace T07
open Gst

/-- The two request pads of tutorial 07 are released and unreferenced once
each, before the NULL request, on the path that returns 0. -/
theorem main_pads_07 (env : Env) : pads_released "pipeline" 2 (main env) := by
  unfold main
  dsimp only
  repeat' apply ite_rule
  all_goals first
    | (unfold pads_released; decide)
    | (cases env.bus with
       | nil => unfold pads_released; decide
       | cons msg rest =>
         dsimp only
         cases msg with
         | none => unfold pads_released; decide
         | some m =>
           simp only [Option.isSome_some, if_true]
           unfold pads_released
           decide)

end T07

namespace T08
open Gst

/-- The three request pads of tutorial 08 are released and unreferenced once
each, before the NULL request, on the path that returns 0. -/
theorem main_pads_08 (env : Env) : pads_released "data.pipeline" 3 (main env) := by
  unfold main
  dsimp only
  repeat' apply ite_rule
  all_goals (unfold pads_released; decide)

end T08

namespace Gst

/-- C13: tutorials 07 and 08 have a path that returns 0, and on every path
that returns 0 the request pads obtained from the tee (2 in tutorial 07, 3 in
tutorial 08) are as many as the release calls, and every one of them is
released exactly once and unreferenced exactly once, the release coming
before the unreference and before the request to set the pipeline to
NULL. -/
theorem request_pads_released (t : Tutorial) (env : Env)
    (ht : t = Tutorial.t07 ∨ t = Tutorial.t08) :
    (t.main (Env.good GstStateChangeReturn.ASYNC [some eos_message] true)).ret = some 0 ∧
    ((t.main env).ret = some 0 →
      (requested_pads (t.main env).trace).length = (if t = Tutorial.t07 then 2 else 3) ∧
      (released_pads (t.main env).trace).length = (requested_pads (t.main env).trace).length ∧
      ∀ ep ∈ requested_pads (t.main env).trace,
        (t.main env).trace.count (Action.release_request_pad ep.1 ep.2) = 1 ∧
        (t.main env).trace.count (Action.object_unref ep.2) = 1 ∧
        (t.main env).trace.indexOf (Action.release_request_pad ep.1 ep.2)
          < (t.main env).trace.indexOf (Action.object_unref ep.2) ∧
        (t.main env).trace.indexOf (Action.release_request_pad ep.1 ep.2)
          < (t.main env).trace.indexOf (Action.set_state t.pipeline GstState.NULL)) := by
  rcases ht with ht | ht <;> subst ht
  · refine ⟨by decide, fun h => ?_⟩
    obtain ⟨h1, h2, h3⟩ := T07.main_pads_07 env h
    exact ⟨h1, h2.trans h1.symm, h3⟩
  · refine ⟨by decide, fun h => ?_⟩
    obtain ⟨h1, h2, h3⟩ := T08.main_pads_08 env h
    exact ⟨h1, h2.trans h1.symm, h3⟩

/-- Witness of `request_pads_released`: tutorial 07 at End-Of-Stream, with
the pads of `tee_audio_pad` and `tee_video_pad`, and tutorial 08 after its
main loop has quit, with the pads of `tee_pad_1`, `tee_pad_2` and
`tee_pad_3`; both return 0 and release as many pads as they requested. -/
theorem request_pads_released_witness :
    (Tutorial.t07.main (Env.good GstStateChangeReturn.ASYNC [some eos_message] true)).ret
      = some 0 ∧
    requested_pads
        (Tutorial.t07.main (Env.good GstStateChangeReturn.ASYNC [some eos_message] true)).trace
      = [("tee", "tee_audio_pad"), ("tee", "tee_video_pad")] ∧
    (released_pads
        (Tutorial.t07.main
          (Env.good GstStateChangeReturn.ASYNC [some eos_message] true)).trace).length
      = (requested_pads
          (Tutorial.t07.main
            (Env.good GstStateChangeReturn.ASYNC [some eos_message] true)).trace).length ∧
    (Tutorial.t08.main (Env.good GstStateChangeReturn.ASYNC [some eos_message] true)).ret
      = some 0 ∧
    requested_pads
        (Tutorial.t08.main (Env.good GstStateChangeReturn.ASYNC [some eos_message] true)).trace
      = [("data.tee", "tee_pad_1"), ("data.tee", "tee_pad_2"), ("data.tee", "tee_pad_3")] ∧
    (released_pads
        (Tutorial.t08.main
          (Env.good GstStateChangeReturn.ASYNC [some eos_message] true)).trace).length
      = (requested_pads
          (Tutorial.t08.main
            (Env.good GstStateChangeReturn.ASYNC [some eos_message] true)).trace).length :=
  ⟨(request_pads_released Tutorial.t07
        (Env.good GstStateChangeReturn.ASYNC [some eos_message] true) (Or.inl rfl)).1,
   by decide,
   ((request_pads_released Tutorial.t07
        (Env.good GstStateChangeReturn.ASYNC [some eos_message] true) (Or.inl rfl)).2
      (request_pads_released Tutorial.t07
        (Env.good GstStateChangeReturn.ASYNC [some eos_message] true) (Or.inl rfl)).1).2.1,
   (request_pads_released Tutorial.t08
        (Env.good GstStateChangeReturn.ASYNC [some eos_message] true) (Or.inr rfl)).1,
   by decide,
   ((request_pads_released Tutorial.t08
        (Env.good GstStateChangeReturn.ASYNC [some eos_message] true) (Or.inr rfl)).2
      (request_pads_released Tutorial.t08
        (Env.good GstStateChangeReturn.ASYNC [some eos_message] true) (Or.inr rfl)).1).2.1⟩

end Gst

namespace T08
open Gst GLib

/-- `start_feed` keeps the registration invariant. -/
theorem start_feed_one_source (w : World) (h : one_source w) : one_source (start_feed w) := by
  obtain ⟨hn, hs⟩ := h
  unfold start_feed
  split
  · rename_i h0
    rcases hs with hs | ⟨hne, _⟩
    · refine ⟨?_, Or.inr ⟨?_, ?_⟩⟩
      · simp [g_idle_add]
      · simpa [g_idle_add] using hn
      · simp [g_idle_add, hs]
    · exact absurd h0 hne
  · exact ⟨hn, hs⟩

/-- `stop_feed` keeps the registration invariant. -/
theorem stop_feed_one_source (w : World) (h : one_source w) : one_source (stop_feed w) := by
  obtain ⟨hn, hs⟩ := h
  unfold stop_feed
  split
  · refine ⟨by simpa [g_source_remove] using hn, Or.inl ?_⟩
    rcases hs with hs | ⟨_, hs⟩
    · simp [g_source_remove, hs]
    · simp [g_source_remove, hs]
  · exact ⟨hn, hs⟩

/-- An idle dispatch of `push_data` keeps the registration invariant. -/
theorem idle_dispatch_one_source (w : World) (id : Nat) (ret : GstFlowReturn)
    (h : one_source w) : one_source (idle_dispatch w id ret) := by
  obtain ⟨hn, hs⟩ := h
  unfold idle_dispatch
  split
  · rename_i hid
    rcases hs with hs | ⟨hne, hs⟩
    · rw [hs] at hid
      simp at hid
    · have hid2 : id = w.data.sourceid := by
        rw [hs] at hid
        simpa using hid
      subst hid2
      dsimp only
      split
      · exact ⟨hn, Or.inr ⟨by rw [push_data_data]; exact hne, by rw [push_data_data]; exact hs⟩⟩
      · exact ⟨hn, Or.inl (by simp [hs])⟩
  · exact ⟨hn, hs⟩

/-- Every step of the feeding machine keeps the registration invariant. -/
theorem step_one_source (w : World) (ev : FeedEvent) (h : one_source w) :
    one_source (step w ev) := by
  cases ev with
  | need_data => exact start_feed_one_source w h
  | enough_data => exact stop_feed_one_source w h
  | idle id ret => exact idle_dispatch_one_source w id ret h

/-- The registration invariant holds after every sequence of events. -/
theorem run_one_source (evs : List FeedEvent) (w : World) (h : one_source w) :
    one_source (run w evs) := by
  induction evs generalizing w with
  | nil => exact h
  | cons ev rest ih => exact ih (step w ev) (step_one_source w ev h)

/-- With a non-zero `sourceid`, `start_feed` changes nothing. -/
theorem start_feed_of_ne (w : World) (h : w.data.sourceid ≠ 0) : start_feed w = w := by
  unfold start_feed
  rw [if_neg h]

/-- After `start_feed`, `sourceid` is not zero in a state that satisfies the
registration invariant. -/
theorem start_feed_sourceid (w : World) (h : one_source w) :
    (start_feed w).data.sourceid ≠ 0 := by
  by_cases h0 : w.data.sourceid = 0
  · unfold start_feed
    rw [if_pos h0]
    simpa [g_idle_add] using h.1
  · rw [start_feed_of_ne w h0]
    exact h0

/-- C21: in every state reachable from the initial state by `start_feed`,
`stop_feed` and idle dispatches of `push_data`, at most one `push_data` idle
handler is registered; a second `start_feed` in a row changes nothing, two of
them from `sourceid = 0` leave exactly one handler, and `stop_feed` with
`sourceid = 0` changes nothing. -/
theorem at_most_one_handler (evs : List FeedEvent) :
    (run World.init evs).loop.sources.length ≤ 1 ∧
    start_feed (start_feed (run World.init evs)) = start_feed (run World.init evs) ∧
    ((run World.init evs).data.sourceid = 0 →
      (start_feed (start_feed (run World.init evs))).loop.sources.length = 1) ∧
    (∀ w : World, w.data.sourceid = 0 → stop_feed w = w) := by
  have hinv : one_source (run World.init evs) :=
    run_one_source evs World.init ⟨by decide, Or.inl rfl⟩
  have h2 : start_feed (start_feed (run World.init evs)) = start_feed (run World.init evs) :=
    start_feed_of_ne _ (start_feed_sourceid _ hinv)
  refine ⟨?_, h2, ?_, ?_⟩
  · rcases hinv.2 with hs | ⟨_, hs⟩ <;> simp [hs]
  · intro h0
    have hs : (run World.init evs).loop.sources = [] := by
      rcases hinv.2 with hs | ⟨hne, _⟩
      · exact hs
      · exact absurd h0 hne
    rw [h2]
    unfold start_feed
    simp [h0, g_idle_add, hs]
  · intro w h0
    unfold stop_feed
    simp [h0]

end T08

namespace T03
open Gst

/-- The events of a handler call that takes the already-linked early exit. -/
theorem handler_early_exit (g : PadGraph) (src : String) (new_pad : Pad)
    (caps : Option GstCaps) (check : GstPadLinkReturn)
    (hv : gst_pad_is_linked g Pad.videoconvert_sink = true)
    (ha : gst_pad_is_linked g Pad.audioconvert_sink = true) :
    pad_added_handler g src new_pad caps check =
      (g,
       [PadEvent.get_static_pad "videoconvert" "sink",
        PadEvent.get_static_pad "audioconvert" "sink",
        PadEvent.g_print ("Received new pad '" ++ new_pad.name ++ "' from '" ++ src ++ "':\n"),
        PadEvent.g_print "We are already linked. Ignoring.\n",
        PadEvent.object_unref Pad.videoconvert_sink,
        PadEvent.object_unref Pad.audioconvert_sink]) := by
  unfold pad_added_handler
  simp [hv, ha, handler_exit]

/-- C22: when the sink pads of `videoconvert` and `audioconvert` are both
linked, `pad_added_handler` leaves the links as they are for every new pad
and whatever its caps: it attempts no link, does not read the caps of the new
pad (no current-caps, structure or name query, and no caps to drop), and the
peer of every pad is unchanged. -/
theorem both_linked_ignores (g : PadGraph) (src : String) (new_pad : Pad)
    (caps : Option GstCaps) (check : GstPadLinkReturn)
    (hv : gst_pad_is_linked g Pad.videoconvert_sink = true)
    (ha : gst_pad_is_linked g Pad.audioconvert_sink = true) :
    (pad_added_handler g src new_pad caps check).1 = g ∧
    link_attempts (pad_added_handler g src new_pad caps check).2 = [] ∧
    (∀ p, PadEvent.get_current_caps p ∉ (pad_added_handler g src new_pad caps check).2) ∧
    (∀ b i, PadEvent.caps_get_structure b i ∉ (pad_added_handler g src new_pad caps check).2) ∧
    (∀ b, PadEvent.structure_get_name b ∉ (pad_added_handler g src new_pad caps check).2) ∧
    PadEvent.caps_unref ∉ (pad_added_handler g src new_pad caps check).2 ∧
    (∀ p, gst_pad_get_peer (pad_added_handler g src new_pad caps check).1 p
      = gst_pad_get_peer g p) ∧
    PadEvent.g_print "We are already linked. Ignoring.\n" ∈
      (pad_added_handler g src new_pad caps check).2 := by
  rw [handler_early_exit g src new_pad caps check hv ha]
  refine ⟨rfl, ?_, ?_, ?_, ?_, ?_, ?_, ?_⟩
  · simp [link_attempts]
  · intro p
    simp
  · intro b i
    simp
  · intro b
    simp
  · simp
  · intro p
    rfl
  · simp

/-- Witness of `both_linked_ignores`: `src_0` feeds `videoconvert`, `src_1`
feeds `audioconvert`, and a second raw video pad `src_2` is announced. -/
theorem both_linked_ignores_witness :
    gst_pad_is_linked
        { links := [(Pad.source_src 0, Pad.videoconvert_sink),
                    (Pad.source_src 1, Pad.audioconvert_sink)] }
        Pad.videoconvert_sink = true ∧
    gst_pad_is_linked
        { links := [(Pad.source_src 0, Pad.videoconvert_sink),
                    (Pad.source_src 1, Pad.audioconvert_sink)] }
        Pad.audioconvert_sink = true ∧
    (pad_added_handler
        { links := [(Pad.source_src 0, Pad.videoconvert_sink),
                    (Pad.source_src 1, Pad.audioconvert_sink)] }
        "source" (Pad.source_src 2) (some (raw_caps "video/x-raw")) GstPadLinkReturn.OK).1
      = { links := [(Pad.source_src 0, Pad.videoconvert_sink),
                    (Pad.source_src 1, Pad.audioconvert_sink)] } ∧
    link_attempts
      (pad_added_handler
        { links := [(Pad.source_src 0, Pad.videoconvert_sink),
                    (Pad.source_src 1, Pad.audioconvert_sink)] }
        "source" (Pad.source_src 2) (some (raw_caps "video/x-raw")) GstPadLinkReturn.OK).2
      = [] :=
  ⟨by decide, by decide,
   (both_linked_ignores
      { links := [(Pad.source_src 0, Pad.videoconvert_sink),
                  (Pad.source_src 1, Pad.audioconvert_sink)] }
      "source" (Pad.source_src 2) (some (raw_caps "video/x-raw")) GstPadLinkReturn.OK
      (by decide) (by decide)).1,
   (both_linked_ignores
      { links := [(Pad.source_src 0, Pad.videoconvert_sink),
                  (Pad.source_src 1, Pad.audioconvert_sink)] }
      "source" (Pad.source_src 2) (some (raw_caps "video/x-raw")) GstPadLinkReturn.OK
      (by decide) (by decide)).2.1⟩

/-- C23 (failing input): nothing is linked yet and the new pad `src_0` has no
current caps.  The handler asks for structure 0 of the absent caps and for
the name of the absent structure, prints the type as `(null)`, and only its
exit code checks for NULL caps (no caps are dropped). -/
theorem absent_caps_are_queried :
    (pad_added_handler { links := [] } "source" (Pad.source_src 0) none GstPadLinkReturn.OK).2
      = [PadEvent.get_static_pad "videoconvert" "sink",
         PadEvent.get_static_pad "audioconvert" "sink",
         PadEvent.g_print "Received new pad 'src_0' from 'source':\n",
         PadEvent.get_current_caps (Pad.source_src 0),
         PadEvent.caps_get_structure false 0,
         PadEvent.structure_get_name false,
         PadEvent.g_print "It has type '(null)' which is not support. Ignoring.\n",
         PadEvent.object_unref Pad.videoconvert_sink,
         PadEvent.object_unref Pad.audioconvert_sink] ∧
    PadEvent.caps_get_structure false 0 ∈
      (pad_added_handler { links := [] } "source" (Pad.source_src 0) none
        GstPadLinkReturn.OK).2 ∧
    PadEvent.structure_get_name false ∈
      (pad_added_handler { links := [] } "source" (Pad.source_src 0) none
        GstPadLinkReturn.OK).2 ∧
    PadEvent.caps_unref ∉
      (pad_added_handler { links := [] } "source" (Pad.source_src 0) none
        GstPadLinkReturn.OK).2 := by
  decide

end T03
